import Mathlib

attribute [local semireducible] Rat.mul Rat.add Rat.sub Rat.inv Rat.ofScientific

/-!
Verification development for the laser-diode current-sweep controller
`run_current_sweep` in `src/cld1015_osa.rs`.

The controller drives a CLD1015 current source through a list of current
set-points and, at each point, triggers and reads back a measurement from an
HP-70952B optical spectrum analyzer, writing a summary CSV and one trace CSV
per point.

Embedding conventions:
* `f64` values are modelled as exact rationals `ℚ`; binary rounding of IEEE
  doubles is abstracted away (the program only adds, subtracts, multiplies
  and divides values parsed from short decimal strings).  A small auxiliary
  type `Fp` models IEEE infinity/NaN propagation for the one site where the
  program can divide by zero.
* Instrument I/O is modelled by an environment `Env` holding the list of
  response lines each instrument will produce and an optional index
  `failAt`: the `failAt`-th channel operation (write or read, counted
  globally across both instruments) and every later one fail, modelling a
  transport failure; `failAt = none` means the transport never fails.
* The run produces a trace of `Event`s: commands written, lines read,
  sleeps, summary-CSV lines, trace-file creations and trace-CSV lines, and
  the one warning the program logs for an unconfirmed sweep.  `println!`
  progress narration and directory creation are not modelled (no claim
  mentions them).
* Rust `str::parse::<f64>` / `parse::<usize>` are modelled by `parseF64` /
  `parseUsize` over the same decimal grammar (sign, digits, optional
  fraction, optional exponent; unsigned digits for `usize`).  The special
  floating-point literals `inf` / `NaN` and integer overflow are outside the
  model; no instrument response in any claim uses them.
* Rust's `{:.N}` formatting is modelled by `fmtFixed` (round half to even to
  `N` decimal digits, as Rust formats exactly representable values).
-/

/-! ### Character-list and string utilities (Rust `trim` / `split(',')`) -/

/-- Digits of a numeric string folded to a natural number. -/
def digitsToNat (cs : List Char) : Nat :=
  cs.foldl (fun n c => n * 10 + (c.toNat - 48)) 0

/-- Boolean test that `p` is an initial segment of `l` (used to recognise
command strings such as the current-level command). -/
def ListLeads : List Char → List Char → Bool
  | [], _ => true
  | _ :: _, [] => false
  | a :: as, b :: bs => a = b && ListLeads as bs

/-- `strLeads p s` : the string `p` is an initial segment of `s`. -/
def strLeads (p s : String) : Bool := ListLeads p.data s.data

/-- Rust `str::trim` on the whitespace the instruments produce. -/
def strTrim (s : String) : String :=
  ⟨((s.data.dropWhile Char.isWhitespace).reverse.dropWhile Char.isWhitespace).reverse⟩

/-- Rust `str::split(',')` on the character list: every comma starts a new
field, the empty string yields one empty field. -/
def splitCommaChars : List Char → List (List Char)
  | [] => [[]]
  | c :: rest =>
    match splitCommaChars rest with
    | [] => if c = ',' then [[], []] else [[c]]
    | h :: t => if c = ',' then [] :: h :: t else (c :: h) :: t

/-- Rust `str::split(',')` collected to a list, as `.collect::<Vec<&str>>()`. -/
def splitComma (s : String) : List String :=
  (splitCommaChars s.data).map fun cs => ⟨cs⟩

/-! ### Rust numeric parsing (`str::parse::<f64>` / `str::parse::<usize>`) -/

/-- Optional leading sign of a Rust numeric literal: `(negative?, rest)`. -/
def parseSign : List Char → Bool × List Char
  | '-' :: rest => (true, rest)
  | '+' :: rest => (false, rest)
  | cs => (false, cs)

/-- Exponent part of a Rust float literal: all remaining characters must be
an optional sign followed by at least one digit. -/
def parseExpDigits (m : ℚ) (cs : List Char) : Option ℚ :=
  let pr := parseSign cs
  if pr.2.isEmpty || !pr.2.all Char.isDigit then none
  else
    let e := digitsToNat pr.2
    some (if pr.1 then m / 10 ^ e else m * 10 ^ e)

/-- Mantissa continuation of a Rust float literal: either the end of the
input or an `e`/`E` exponent. -/
def parseExpPart (neg : Bool) (ip fp : List Char) (cs : List Char) : Option ℚ :=
  let mant : ℚ := (digitsToNat ip : ℚ) + (digitsToNat fp : ℚ) / 10 ^ fp.length
  let signed := if neg then -mant else mant
  match cs with
  | [] => some signed
  | 'e' :: rest => parseExpDigits signed rest
  | 'E' :: rest => parseExpDigits signed rest
  | _ => none

/-- Rust `str::parse::<f64>` on its finite decimal grammar
`[+-]? (digits [. digits?] | . digits) ([eE] [+-]? digits)?`, returning the
exact rational value. -/
def parseF64Chars (cs : List Char) : Option ℚ :=
  let pr := parseSign cs
  let ipSplit := pr.2.span Char.isDigit
  match ipSplit.2 with
  | '.' :: rest2 =>
    let fpSplit := rest2.span Char.isDigit
    if ipSplit.1.isEmpty && fpSplit.1.isEmpty then none
    else parseExpPart pr.1 ipSplit.1 fpSplit.1 fpSplit.2
  | other =>
    if ipSplit.1.isEmpty then none
    else parseExpPart pr.1 ipSplit.1 [] other

/-- Rust `str::parse::<f64>` on a string. -/
def parseF64 (s : String) : Option ℚ := parseF64Chars s.data

/-- Rust `str::parse::<usize>`: an optional `+` then at least one digit;
a leading `-` or any other character fails. -/
def parseUsize (s : String) : Option Nat :=
  let cs := match s.data with
    | '+' :: r => r
    | r => r
  if cs.isEmpty || !cs.all Char.isDigit then none else some (digitsToNat cs)

/-! ### Rust `{:.N}` fixed-precision formatting -/

/-- Round half to even, the rounding Rust's float formatting applies to the
decimal value being printed. -/
def rhe (q : ℚ) : ℤ :=
  let f := ⌊q⌋
  let frac := q - f
  if frac < 1/2 then f
  else if 1/2 < frac then f + 1
  else if f % 2 = 0 then f else f + 1

/-- Rust `format!("{:.prec}", x)` for the finite value `x`. -/
def fmtFixed (prec : Nat) (q : ℚ) : String :=
  let m := (rhe (|q| * 10 ^ prec)).toNat
  let ip := m / 10 ^ prec
  let fp := m % 10 ^ prec
  let fpStr := toString fp
  let pad := String.mk (List.replicate (prec - fpStr.length) '0')
  (if q < 0 then "-" else "") ++ toString ip ++ "." ++ pad ++ fpStr

/-! ### Pure per-line definitions of `run_current_sweep`

Each definition is translated from the numbered source line of
`src/cld1015_osa.rs` noted in its doc comment. -/

/-- Line 32: `let num_points = ((stop_ma - start_ma) / step_ma).floor() as usize + 1;`
(the `as usize` cast clamps a negative floor to zero, as `Int.toNat` does). -/
def numPoints (startMa stopMa stepMa : ℚ) : Nat :=
  (⌊(stopMa - startMa) / stepMa⌋).toNat + 1

/-- Line 78: `let current_ma = start_ma + (i as f64 * step_ma);`. -/
def pointCurrentMa (startMa stepMa : ℚ) (i : Nat) : ℚ :=
  startMa + (i : ℚ) * stepMa

/-- Line 84: the current-level command sent for point `i`
(`current_a = current_ma / 1000.0`, formatted `{:.6}`). -/
def currentCmd (startMa stepMa : ℚ) (i : Nat) : String :=
  "SOURce:CURRent:LEVel:IMMediate:AMPLitude " ++
    fmtFixed 6 (pointCurrentMa startMa stepMa i / 1000) ++ "\n"

/-- Line 44-47: the fixed spectrum window. -/
def centerWl : ℚ := 974.7

/-- Line 45: span in nm. -/
def spanWl : ℚ := 2

/-- Line 46: `let start_wl = center_wl - (span_wl / 2.0);`. -/
def startWl : ℚ := centerWl - spanWl / 2

/-- Line 47: `let stop_wl = center_wl + (span_wl / 2.0);`. -/
def stopWl : ℚ := centerWl + spanWl / 2

/-- Line 56: `mds_response.trim().parse::<usize>().unwrap_or(800)`. -/
def numTracePointsOf (resp : String) : Nat :=
  (parseUsize (strTrim resp)).getD 800

/-- Line 114: `peak_wavelength.trim().parse::<f64>().unwrap_or(0.0) * 1.0e9`. -/
def peakWavelengthNmOf (resp : String) : ℚ :=
  ((parseF64 (strTrim resp)).getD 0) * 1000000000

/-- Line 123: `peak_power.trim().parse::<f64>().unwrap_or(-100.0)`. -/
def peakPowerDbmOf (resp : String) : ℚ :=
  (parseF64 (strTrim resp)).getD (-100)

/-- Line 162: `value.parse::<f64>().unwrap_or(-100.0)` for one trace sample
(the individual sample text is not trimmed in the source). -/
def tracePowerOf (v : String) : ℚ :=
  (parseF64 v).getD (-100)

/-- Line 145: `let wavelength_step = (stop_wl - start_wl) / (num_trace_points as f64 - 1.0);`. -/
def wavelengthStepOf (ntp : Nat) : ℚ :=
  (stopWl - startWl) / ((ntp : ℚ) - 1)

/-- Line 161: `let wavelength = start_wl + (j as f64 * wavelength_step);`. -/
def traceWavelength (ntp j : Nat) : ℚ :=
  startWl + (j : ℚ) * wavelengthStepOf ntp

/-- Line 23: the summary-CSV header. -/
def summaryHeader : String := "Current (mA),Peak Wavelength (nm),Peak Power (dBm)"

/-- Line 130-131: one summary-CSV row, `{:.2},{:.4},{:.2}`. -/
def summaryRow (currentMa peakWavelengthNm peakPowerDbm : ℚ) : String :=
  fmtFixed 2 currentMa ++ "," ++ fmtFixed 4 peakWavelengthNm ++ "," ++
    fmtFixed 2 peakPowerDbm

/-- Line 26: the trace-data directory. -/
def traceDir : String := "data/current_sweep_trace_data"

/-- Line 148: `format!("{}/trace_{:.2}mA.csv", trace_dir, current_ma)`. -/
def traceFileName (currentMa : ℚ) : String :=
  traceDir ++ "/trace_" ++ fmtFixed 2 currentMa ++ "mA.csv"

/-! ### The instrument-channel model -/

/-- One observable step of the run: a command written to an instrument, a
response line read, a sleep, a summary-CSV line, a trace-file creation, a
trace-CSV line, or the logged sweep-completion warning. -/
inductive Event where
  | cldWrite (cmd : String)
  | osaWrite (cmd : String)
  | cldRead (resp : String)
  | osaRead (resp : String)
  | sleepMs (ms : Nat)
  | summaryLine (line : String)
  | createTraceFile (name : String)
  | traceLine (name : String) (line : String)
  | warn (msg : String)
deriving DecidableEq, Repr

/-- The external world: the response lines each instrument will produce, in
order, and the index of the first channel operation (write or read, counted
globally) that fails with a transport error; `none` means the transport
never fails. -/
structure Env where
  osaResponses : List String
  cldResponses : List String
  failAt : Option Nat
deriving DecidableEq, Repr

/-- `env` with a transport that never fails. -/
def noFail (env : Env) : Env := ⟨env.osaResponses, env.cldResponses, none⟩

/-- Whether the `n`-th channel operation succeeds. -/
def ioOk (env : Env) (n : Nat) : Bool :=
  match env.failAt with
  | none => true
  | some k => decide (n < k)

/-- The running state: events so far, number of channel operations
performed, and the responses each instrument has not yet delivered. -/
structure St where
  events : List Event
  ioCount : Nat
  osaRs : List String
  cldRs : List String
deriving DecidableEq, Repr

/-- Record one non-I/O event. -/
def emit (e : Event) (s : St) : St :=
  ⟨s.events ++ [e], s.ioCount, s.osaRs, s.cldRs⟩

/-- `cld1015.write_all(cmd)?`: a channel write to the current source. -/
def cldWrite (env : Env) (cmd : String) (s : St) : Except St St :=
  if ioOk env s.ioCount then
    Except.ok ⟨s.events ++ [Event.cldWrite cmd], s.ioCount + 1, s.osaRs, s.cldRs⟩
  else Except.error s

/-- `osa.write_all(cmd)?`: a channel write to the analyzer. -/
def osaWrite (env : Env) (cmd : String) (s : St) : Except St St :=
  if ioOk env s.ioCount then
    Except.ok ⟨s.events ++ [Event.osaWrite cmd], s.ioCount + 1, s.osaRs, s.cldRs⟩
  else Except.error s

/-- `reader.read_line(..)?` on the analyzer: delivers the next pending
response line (or the empty string when none is pending). -/
def osaRead (env : Env) (s : St) : Except St (String × St) :=
  if ioOk env s.ioCount then
    Except.ok (s.osaRs.headD "",
      ⟨s.events ++ [Event.osaRead (s.osaRs.headD "")], s.ioCount + 1,
        s.osaRs.tail, s.cldRs⟩)
  else Except.error s

/-- `reader.read_line(..)?` on the current source. -/
def cldRead (env : Env) (s : St) : Except St (String × St) :=
  if ioOk env s.ioCount then
    Except.ok (s.cldRs.headD "",
      ⟨s.events ++ [Event.cldRead (s.cldRs.headD "")], s.ioCount + 1,
        s.osaRs, s.cldRs.tail⟩)
  else Except.error s

/-- `std::thread::sleep(Duration::from_millis(ms))`. -/
def sleep (ms : Nat) (s : St) : St := emit (Event.sleepMs ms) s

/-- `writeln!(file, ..)` to the summary CSV. -/
def writeSummary (line : String) (s : St) : St := emit (Event.summaryLine line) s

/-! ### The sweep controller, phase by phase -/

/-- Lines 36-74: instrument configuration, the trace-point-count query and
the TEC-before-laser startup sequence.  Returns `num_trace_points`. -/
def setupPhase (env : Env) (s : St) : Except St (Nat × St) := do
  let s ← cldWrite env "SOURce:FUNCtion:MODE CURRent\n" s
  let s ← cldWrite env "SOURce:CURRent:LIMit:AMPLitude 100MA\n" s
  let s ← osaWrite env "SNGLS;\n" s
  let s ← osaWrite env "CENTERWL 974.7NM;SPANWL 2NM;\n" s
  let s ← osaWrite env "MDS?;\n" s
  let pr ← osaRead env s
  let numTracePoints := numTracePointsOf pr.1
  let s := pr.2
  let s ← cldWrite env "OUTPut:STATe 0\n" s
  let s ← cldWrite env "OUTPut2:STATe 1\n" s
  let s := sleep 100 s
  let s ← cldWrite env "OUTPut:STATe 1\n" s
  let s := sleep 100 s
  Except.ok (numTracePoints, s)

/-- Lines 158-165: parse the comma-separated trace samples and write one
`{:.4},{:.4}` row per sample index below `num_trace_points`. -/
def writeTraceRows (ntp : Nat) (wstep : ℚ) (fname : String) (values : List String)
    (s : St) : St :=
  values.enum.foldl
    (fun s jv =>
      if jv.1 < ntp then
        emit (Event.traceLine fname
          (fmtFixed 4 (startWl + (jv.1 : ℚ) * wstep) ++ "," ++
            fmtFixed 4 (tracePowerOf jv.2))) s
      else s) s

/-- Lines 77-168: the body of the sweep loop for point `i`. -/
def sweepPointBody (env : Env) (startMa stepMa : ℚ) (dwellTimeMs ntp i : Nat)
    (s : St) : Except St St := do
  let currentMa := pointCurrentMa startMa stepMa i
  let s ← cldWrite env (currentCmd startMa stepMa i) s
  let s := sleep dwellTimeMs s
  let s ← osaWrite env "TS;DONE?;\n" s
  let pr ← osaRead env s
  let doneResp := pr.1
  let s := pr.2
  let s := if strTrim doneResp ≠ "1" then
      emit (Event.warn ("Sweep not confirmed complete. Response: " ++ strTrim doneResp)) s
    else s
  let s ← osaWrite env "MKPK HI;\n" s
  let s ← osaWrite env "MKWL?;\n" s
  let prWl ← osaRead env s
  let peakWavelengthNm := peakWavelengthNmOf prWl.1
  let s ← osaWrite env "MKA?;\n" prWl.2
  let prPw ← osaRead env s
  let peakPowerDbm := peakPowerDbmOf prPw.1
  let s := writeSummary (summaryRow currentMa peakWavelengthNm peakPowerDbm) prPw.2
  let s ← osaWrite env "TRA?;\n" s
  let prTr ← osaRead env s
  let wavelengthStep := wavelengthStepOf ntp
  let fname := traceFileName currentMa
  let s := emit (Event.createTraceFile fname) prTr.2
  let s := emit (Event.traceLine fname "Wavelength (nm),Power (dBm)") s
  let s := writeTraceRows ntp wavelengthStep fname (splitComma (strTrim prTr.1)) s
  Except.ok s

/-- Line 77: `for i in 0..num_points`. -/
def sweepLoop (env : Env) (startMa stepMa : ℚ) (dwellTimeMs ntp : Nat) :
    List Nat → St → Except St St
  | [], s => Except.ok s
  | i :: rest, s => do
    let s2 ← sweepPointBody env startMa stepMa dwellTimeMs ntp i s
    sweepLoop env startMa stepMa dwellTimeMs ntp rest s2

/-- Lines 170-196: laser off, sweep off, and the two error-queue queries. -/
def teardown (env : Env) (s : St) : Except St St := do
  let s ← cldWrite env "OUTPut:STATe 0\n" s
  let s ← osaWrite env "SWEEP OFF;\n" s
  let s ← cldWrite env "SYST:ERR?\n" s
  let pr ← cldRead env s
  let s ← osaWrite env "XERR?;\n" pr.2
  let pr2 ← osaRead env s
  Except.ok pr2.2

/-- Lines 10-203: `run_current_sweep`.  The summary header is written before
any instrument I/O; a transport failure aborts with the state reached so
far as the error value. -/
def run_current_sweep (env : Env) (startMa stopMa stepMa : ℚ) (dwellTimeMs : Nat) :
    Except St St := do
  let s0 : St := ⟨[Event.summaryLine summaryHeader], 0, env.osaResponses, env.cldResponses⟩
  let pr ← setupPhase env s0
  let s ← sweepLoop env startMa stepMa dwellTimeMs pr.1
    (List.range (numPoints startMa stopMa stepMa)) pr.2
  teardown env s

/-- The events of a finished or aborted run. -/
def resultEvents : Except St St → List Event
  | Except.ok s => s.events
  | Except.error s => s.events

/-! ### Projections of an event trace -/

/-- The summary-CSV lines of a trace, in order. -/
def summaryLines (evts : List Event) : List String :=
  evts.filterMap fun e => match e with
    | Event.summaryLine l => some l
    | _ => none

/-- Whether an event is a channel operation. -/
def isIOEvent : Event → Bool
  | Event.cldWrite _ => true
  | Event.osaWrite _ => true
  | Event.cldRead _ => true
  | Event.osaRead _ => true
  | _ => false

/-- Number of channel operations recorded in a trace. -/
def ioEvents (evts : List Event) : Nat := (evts.filter isIOEvent).length

/-- The current-level commands written to the current source, in order. -/
def currentCmds (evts : List Event) : List String :=
  evts.filterMap fun e => match e with
    | Event.cldWrite c => if strLeads "SOURce:CURRent:LEVel" c then some c else none
    | _ => none

/-- The trace files created, in order. -/
def traceFilesCreated (evts : List Event) : List String :=
  evts.filterMap fun e => match e with
    | Event.createTraceFile n => some n
    | _ => none

/-- `initOf l₁ l₂`: `l₁` is an initial segment of `l₂`. -/
def initOf (l₁ l₂ : List Event) : Prop := ∃ t, l₂ = l₁ ++ t

/-! ### The event trace of a failure-free run, as a pure function -/

/-- The trace-row events of one point, as a pure list. -/
def traceRowEvents (ntp : Nat) (wstep : ℚ) (fname : String)
    (values : List String) : List Event :=
  values.enum.filterMap fun jv =>
    if jv.1 < ntp then
      some (Event.traceLine fname
        (fmtFixed 4 (startWl + (jv.1 : ℚ) * wstep) ++ "," ++
          fmtFixed 4 (tracePowerOf jv.2)))
    else none

/-- The events of the setup phase, given the trace-point-count response. -/
def setupEvents (r0 : String) : List Event :=
  [Event.cldWrite "SOURce:FUNCtion:MODE CURRent\n",
   Event.cldWrite "SOURce:CURRent:LIMit:AMPLitude 100MA\n",
   Event.osaWrite "SNGLS;\n",
   Event.osaWrite "CENTERWL 974.7NM;SPANWL 2NM;\n",
   Event.osaWrite "MDS?;\n",
   Event.osaRead r0,
   Event.cldWrite "OUTPut:STATe 0\n",
   Event.cldWrite "OUTPut2:STATe 1\n",
   Event.sleepMs 100,
   Event.cldWrite "OUTPut:STATe 1\n",
   Event.sleepMs 100]

/-- The events of the sweep-loop body for point `i`, given the pending
analyzer responses `rs` (the body consumes the first four). -/
def bodyEvents (startMa stepMa : ℚ) (dwellTimeMs ntp i : Nat)
    (rs : List String) : List Event :=
  let doneResp := rs.headD ""
  let wlResp := rs.tail.headD ""
  let pwResp := rs.tail.tail.headD ""
  let traceResp := rs.tail.tail.tail.headD ""
  let currentMa := pointCurrentMa startMa stepMa i
  let fname := traceFileName currentMa
  [Event.cldWrite (currentCmd startMa stepMa i),
   Event.sleepMs dwellTimeMs,
   Event.osaWrite "TS;DONE?;\n",
   Event.osaRead doneResp] ++
  (if strTrim doneResp ≠ "1" then
      [Event.warn ("Sweep not confirmed complete. Response: " ++ strTrim doneResp)]
    else []) ++
  [Event.osaWrite "MKPK HI;\n",
   Event.osaWrite "MKWL?;\n",
   Event.osaRead wlResp,
   Event.osaWrite "MKA?;\n",
   Event.osaRead pwResp,
   Event.summaryLine (summaryRow currentMa (peakWavelengthNmOf wlResp) (peakPowerDbmOf pwResp)),
   Event.osaWrite "TRA?;\n",
   Event.osaRead traceResp,
   Event.createTraceFile fname,
   Event.traceLine fname "Wavelength (nm),Power (dBm)"] ++
  traceRowEvents ntp (wavelengthStepOf ntp) fname (splitComma (strTrim traceResp))

/-- The events of the whole sweep loop, given the pending analyzer
responses. -/
def loopEvents (startMa stepMa : ℚ) (dwellTimeMs ntp : Nat) :
    List Nat → List String → List Event
  | [], _ => []
  | i :: rest, rs =>
    bodyEvents startMa stepMa dwellTimeMs ntp i rs ++
      loopEvents startMa stepMa dwellTimeMs ntp rest (rs.drop 4)

/-- The events of the teardown phase, given the two error-queue responses. -/
def teardownEvents (cldR osaR : String) : List Event :=
  [Event.cldWrite "OUTPut:STATe 0\n",
   Event.osaWrite "SWEEP OFF;\n",
   Event.cldWrite "SYST:ERR?\n",
   Event.cldRead cldR,
   Event.osaWrite "XERR?;\n",
   Event.osaRead osaR]

/-- The summary-CSV data rows the loop writes, given the pending analyzer
responses. -/
def summaryRows (startMa stepMa : ℚ) : List Nat → List String → List String
  | [], _ => []
  | i :: rest, rs =>
    summaryRow (pointCurrentMa startMa stepMa i)
        (peakWavelengthNmOf (rs.tail.headD ""))
        (peakPowerDbmOf (rs.tail.tail.headD "")) ::
      summaryRows startMa stepMa rest (rs.drop 4)

/-- The full event trace of a failure-free run. -/
def fullEvents (env : Env) (startMa stopMa stepMa : ℚ) (dwellTimeMs : Nat) :
    List Event :=
  let r0 := env.osaResponses.headD ""
  let ntp := numTracePointsOf r0
  let rs := env.osaResponses.tail
  let n := numPoints startMa stopMa stepMa
  Event.summaryLine summaryHeader :: setupEvents r0 ++
    loopEvents startMa stepMa dwellTimeMs ntp (List.range n) rs ++
    teardownEvents (env.cldResponses.headD "") ((rs.drop (4 * n)).headD "")

/-! ### IEEE finiteness model for the unguarded division (claim about
`num_trace_points = 1`)

`Fp` carries exactly the finite/infinite/NaN distinction of an `f64`;
finite magnitudes stay exact rationals.  Only the operations the
wavelength interpolation uses are defined. -/

/-- An `f64` as finite value, signed infinity, or NaN. -/
inductive Fp where
  | fin (q : ℚ)
  | inf (neg : Bool)
  | nan
deriving DecidableEq, Repr

/-- IEEE addition on the modelled values. -/
def Fp.add : Fp → Fp → Fp
  | Fp.nan, _ => Fp.nan
  | _, Fp.nan => Fp.nan
  | Fp.inf s, Fp.inf t => if s = t then Fp.inf s else Fp.nan
  | Fp.inf s, Fp.fin _ => Fp.inf s
  | Fp.fin _, Fp.inf t => Fp.inf t
  | Fp.fin a, Fp.fin b => Fp.fin (a + b)

/-- IEEE subtraction on the modelled values. -/
def Fp.sub : Fp → Fp → Fp
  | Fp.nan, _ => Fp.nan
  | _, Fp.nan => Fp.nan
  | Fp.inf s, Fp.inf t => if s = t then Fp.nan else Fp.inf s
  | Fp.inf s, Fp.fin _ => Fp.inf s
  | Fp.fin _, Fp.inf t => Fp.inf !t
  | Fp.fin a, Fp.fin b => Fp.fin (a - b)

/-- IEEE multiplication on the modelled values (`0 * ∞ = NaN`). -/
def Fp.mul : Fp → Fp → Fp
  | Fp.nan, _ => Fp.nan
  | _, Fp.nan => Fp.nan
  | Fp.inf s, Fp.inf t => Fp.inf (s != t)
  | Fp.inf s, Fp.fin b => if b = 0 then Fp.nan else Fp.inf (s != decide (b < 0))
  | Fp.fin a, Fp.inf t => if a = 0 then Fp.nan else Fp.inf (decide (a < 0) != t)
  | Fp.fin a, Fp.fin b => Fp.fin (a * b)

/-- IEEE division on the modelled values (`x / 0 = ±∞` for `x ≠ 0`,
`0 / 0 = NaN`). -/
def Fp.div : Fp → Fp → Fp
  | Fp.nan, _ => Fp.nan
  | _, Fp.nan => Fp.nan
  | Fp.inf _, Fp.inf _ => Fp.nan
  | Fp.inf s, Fp.fin b => Fp.inf (s != decide (b < 0))
  | Fp.fin _, Fp.inf _ => Fp.fin 0
  | Fp.fin a, Fp.fin b =>
    if b = 0 then (if a = 0 then Fp.nan else Fp.inf (decide (a < 0))) else Fp.fin (a / b)

/-- Whether the modelled value is finite. -/
def Fp.isFinite : Fp → Bool
  | Fp.fin _ => true
  | _ => false

/-- Line 145 over `Fp`: `(stop_wl - start_wl) / (num_trace_points as f64 - 1.0)`. -/
def fpWavelengthStep (ntp : Nat) : Fp :=
  ((Fp.fin stopWl).sub (Fp.fin startWl)).div ((Fp.fin (ntp : ℚ)).sub (Fp.fin 1))

/-- Line 161 over `Fp`: `start_wl + (j as f64 * wavelength_step)`. -/
def fpTraceWavelength (ntp j : Nat) : Fp :=
  (Fp.fin startWl).add ((Fp.fin (j : ℚ)).mul (fpWavelengthStep ntp))

/-! ### Concrete environments used in the closed instances below -/

/-- A transport that delivers one three-sample run and never fails. -/
def envRunOk : Env :=
  ⟨["3\n", "1\n", "9.747e-7\n", "-20.5\n", "-60.1,-55.2\n"], ["0,No error\n"], none⟩

/-- The same responses with the transport failing at operation 17, the
trace-data query of the first sweep point. -/
def envFailTra : Env :=
  ⟨["3\n", "1\n", "9.747e-7\n", "-20.5\n", "-60.1,-55.2\n"], ["0,No error\n"], some 17⟩

/-- A transport failing at operation 3, during instrument configuration. -/
def envFailSetup : Env := ⟨[], [], some 3⟩

/-- A transport whose trace-point-count response is `"0"` and never fails. -/
def envZeroMds : Env := ⟨["0\n", "1\n", "9.747e-7\n", "-20.5\n", "-60.1\n"], [""], none⟩

/-! ### Basic reduction lemmas -/

@[simp] theorem exc_bind_ok {α β : Type} (a : α) (f : α → Except St β) :
    (Except.ok a : Except St α) >>= f = f a := rfl

@[simp] theorem exc_bind_err {α β : Type} (s : St) (f : α → Except St β) :
    (Except.error s : Except St α) >>= f = Except.error s := rfl

theorem tail4_drop {α : Type} (l : List α) : l.tail.tail.tail.tail = l.drop 4 := by
  rcases l with _ | ⟨a, _ | ⟨b, _ | ⟨c, _ | ⟨d, t⟩⟩⟩⟩ <;> rfl

theorem writeTraceRows_eq (ntp : Nat) (w : ℚ) (f : String) (values : List String)
    (s : St) :
    writeTraceRows ntp w f values s =
      ⟨s.events ++ traceRowEvents ntp w f values, s.ioCount, s.osaRs, s.cldRs⟩ := by
  unfold writeTraceRows traceRowEvents
  generalize values.enum = l
  induction l generalizing s with
  | nil => simp
  | cons jv rest ih =>
    simp only [List.foldl_cons, List.filterMap_cons]
    by_cases h : jv.1 < ntp
    · rw [if_pos h, ih]
      simp [h, emit, List.append_assoc]
    · rw [if_neg h, ih]
      simp [h]

/-! ### Characterization of a failure-free run -/

theorem body_none (env : Env) (h : env.failAt = none) (a st : ℚ) (d ntp i : Nat)
    (s : St) :
    sweepPointBody env a st d ntp i s =
      Except.ok ⟨s.events ++ bodyEvents a st d ntp i s.osaRs, s.ioCount + 10,
        s.osaRs.drop 4, s.cldRs⟩ := by
  obtain ⟨o, c, f⟩ := env
  simp only at h
  subst h
  rw [← tail4_drop]
  by_cases hw : strTrim (s.osaRs.head?.getD "") = "1" <;>
    simp [sweepPointBody, bodyEvents, cldWrite, osaWrite, osaRead, ioOk, sleep,
      writeSummary, emit, writeTraceRows_eq, hw, List.append_assoc]

theorem setup_none (env : Env) (h : env.failAt = none) (s : St) :
    setupPhase env s =
      Except.ok (numTracePointsOf (s.osaRs.headD ""),
        ⟨s.events ++ setupEvents (s.osaRs.headD ""), s.ioCount + 9,
          s.osaRs.tail, s.cldRs⟩) := by
  obtain ⟨o, c, f⟩ := env
  simp only at h
  subst h
  simp [setupPhase, setupEvents, cldWrite, osaWrite, osaRead, ioOk, sleep, emit,
    List.append_assoc]

theorem teardown_none (env : Env) (h : env.failAt = none) (s : St) :
    teardown env s =
      Except.ok ⟨s.events ++ teardownEvents (s.cldRs.headD "") (s.osaRs.headD ""),
        s.ioCount + 6, s.osaRs.tail, s.cldRs.tail⟩ := by
  obtain ⟨o, c, f⟩ := env
  simp only at h
  subst h
  simp [teardown, teardownEvents, cldWrite, osaWrite, osaRead, cldRead, ioOk, emit,
    List.append_assoc]

theorem loop_none (env : Env) (h : env.failAt = none) (a st : ℚ) (d ntp : Nat)
    (L : List Nat) (s : St) :
    sweepLoop env a st d ntp L s =
      Except.ok ⟨s.events ++ loopEvents a st d ntp L s.osaRs,
        s.ioCount + 10 * L.length, s.osaRs.drop (4 * L.length), s.cldRs⟩ := by
  induction L generalizing s with
  | nil => simp [sweepLoop, loopEvents]
  | cons i rest ih =>
    rw [sweepLoop, body_none env h, exc_bind_ok, ih]
    simp [loopEvents, List.append_assoc, List.drop_drop, Nat.mul_succ, Nat.mul_add]
    constructor
    · omega
    · congr 1
      omega

theorem run_none (env : Env) (h : env.failAt = none) (a b st : ℚ) (d : Nat) :
    run_current_sweep env a b st d =
      Except.ok ⟨fullEvents env a b st d, 15 + 10 * numPoints a b st,
        ((env.osaResponses.tail.drop (4 * numPoints a b st)).tail),
        env.cldResponses.tail⟩ := by
  rw [run_current_sweep, setup_none env h, exc_bind_ok, loop_none env h, exc_bind_ok,
    teardown_none env h]
  simp [fullEvents, List.append_assoc]
  omega

/-! ### Transport-failure characterization: per-operation lemmas -/

theorem cldWrite_lt (env : Env) (k : Nat) (h : env.failAt = some k) (c : String)
    (s : St) (hlt : s.ioCount < k) :
    cldWrite env c s =
      Except.ok ⟨s.events ++ [Event.cldWrite c], s.ioCount + 1, s.osaRs, s.cldRs⟩ := by
  simp [cldWrite, ioOk, h, hlt]

theorem cldWrite_ge (env : Env) (k : Nat) (h : env.failAt = some k) (c : String)
    (s : St) (hge : k ≤ s.ioCount) :
    cldWrite env c s = Except.error s := by
  have hn : ¬ (s.ioCount < k) := by omega
  simp [cldWrite, ioOk, h, hn]

theorem osaWrite_lt (env : Env) (k : Nat) (h : env.failAt = some k) (c : String)
    (s : St) (hlt : s.ioCount < k) :
    osaWrite env c s =
      Except.ok ⟨s.events ++ [Event.osaWrite c], s.ioCount + 1, s.osaRs, s.cldRs⟩ := by
  simp [osaWrite, ioOk, h, hlt]

theorem osaWrite_ge (env : Env) (k : Nat) (h : env.failAt = some k) (c : String)
    (s : St) (hge : k ≤ s.ioCount) :
    osaWrite env c s = Except.error s := by
  have hn : ¬ (s.ioCount < k) := by omega
  simp [osaWrite, ioOk, h, hn]

theorem osaRead_lt (env : Env) (k : Nat) (h : env.failAt = some k)
    (s : St) (hlt : s.ioCount < k) :
    osaRead env s =
      Except.ok (s.osaRs.headD "",
        ⟨s.events ++ [Event.osaRead (s.osaRs.headD "")], s.ioCount + 1,
          s.osaRs.tail, s.cldRs⟩) := by
  simp [osaRead, ioOk, h, hlt]

theorem osaRead_ge (env : Env) (k : Nat) (h : env.failAt = some k)
    (s : St) (hge : k ≤ s.ioCount) :
    osaRead env s = Except.error s := by
  have hn : ¬ (s.ioCount < k) := by omega
  simp [osaRead, ioOk, h, hn]

theorem cldRead_lt (env : Env) (k : Nat) (h : env.failAt = some k)
    (s : St) (hlt : s.ioCount < k) :
    cldRead env s =
      Except.ok (s.cldRs.headD "",
        ⟨s.events ++ [Event.cldRead (s.cldRs.headD "")], s.ioCount + 1,
          s.osaRs, s.cldRs.tail⟩) := by
  simp [cldRead, ioOk, h, hlt]

theorem cldRead_ge (env : Env) (k : Nat) (h : env.failAt = some k)
    (s : St) (hge : k ≤ s.ioCount) :
    cldRead env s = Except.error s := by
  have hn : ¬ (s.ioCount < k) := by omega
  simp [cldRead, ioOk, h, hn]

theorem ioEvents_append (l₁ l₂ : List Event) :
    ioEvents (l₁ ++ l₂) = ioEvents l₁ + ioEvents l₂ := by
  simp [ioEvents, List.filter_append]

theorem ioEvents_traceRowEvents (ntp : Nat) (w : ℚ) (f : String)
    (values : List String) : ioEvents (traceRowEvents ntp w f values) = 0 := by
  unfold traceRowEvents
  generalize values.enum = l
  induction l with
  | nil => simp [ioEvents]
  | cons jv rest ih =>
    by_cases h : jv.1 < ntp <;>
      simp [List.filterMap_cons, h, ioEvents, isIOEvent, List.filter_cons] <;>
      simpa [ioEvents] using ih


/-! ### Helpers to move `if` through states and lists -/

@[simp] theorem St_ite_events (c : Prop) [Decidable c] (A B : St) :
    (if c then A else B).events = if c then A.events else B.events := by
  split <;> rfl

@[simp] theorem St_ite_ioCount (c : Prop) [Decidable c] (A B : St) :
    (if c then A else B).ioCount = if c then A.ioCount else B.ioCount := by
  split <;> rfl

@[simp] theorem St_ite_osaRs (c : Prop) [Decidable c] (A B : St) :
    (if c then A else B).osaRs = if c then A.osaRs else B.osaRs := by
  split <;> rfl

@[simp] theorem St_ite_cldRs (c : Prop) [Decidable c] (A B : St) :
    (if c then A else B).cldRs = if c then A.cldRs else B.cldRs := by
  split <;> rfl

@[simp] theorem append_ite_list (c : Prop) [Decidable c] (l a b : List Event) :
    (l ++ if c then a else b) = if c then l ++ a else l ++ b := by
  split <;> rfl

@[simp] theorem ite_append_list (c : Prop) [Decidable c] (a b l : List Event) :
    ((if c then a else b) ++ l) = if c then a ++ l else b ++ l := by
  split <;> rfl

@[simp] theorem cons_ite_list (c : Prop) [Decidable c] (e : Event) (a b : List Event) :
    (e :: if c then a else b) = if c then e :: a else e :: b := by
  split <;> rfl

@[simp] theorem ioEvents_ite (c : Prop) [Decidable c] (a b : List Event) :
    ioEvents (if c then a else b) = if c then ioEvents a else ioEvents b := by
  split <;> rfl

@[simp] theorem ite_St_mk (c : Prop) [Decidable c] (e1 e2 : List Event) (n : Nat)
    (o r : List String) :
    (if c then (⟨e1, n, o, r⟩ : St) else ⟨e2, n, o, r⟩) = ⟨if c then e1 else e2, n, o, r⟩ := by
  split <;> rfl

@[simp] theorem ioEvents_nil : ioEvents [] = 0 := rfl

@[simp] theorem ioEvents_cons (e : Event) (l : List Event) :
    ioEvents (e :: l) = (if isIOEvent e = true then 1 else 0) + ioEvents l := by
  by_cases hh : isIOEvent e <;> simp [ioEvents, List.filter_cons, hh, Nat.add_comm]

theorem initOf_refl (l : List Event) : initOf l l := ⟨[], by simp⟩

/-! ### Transport-failure characterization of the sweep-loop body -/

theorem body_some (env : Env) (k : Nat) (h : env.failAt = some k) (a st : ℚ)
    (d ntp i : Nat) (s : St) (hk : s.ioCount ≤ k) :
    (s.ioCount + 10 ≤ k →
      sweepPointBody env a st d ntp i s =
        Except.ok ⟨s.events ++ bodyEvents a st d ntp i s.osaRs, s.ioCount + 10,
          s.osaRs.drop 4, s.cldRs⟩) ∧
    (k < s.ioCount + 10 →
      ∃ s₀, sweepPointBody env a st d ntp i s = Except.error s₀ ∧
        s₀.ioCount = k ∧ ioEvents s₀.events = ioEvents s.events + (k - s.ioCount) ∧
        initOf s₀.events (s.events ++ bodyEvents a st d ntp i s.osaRs)) := by
  constructor
  · intro hok
    have c0 : s.ioCount < k := by omega
    have c1 : s.ioCount + 1 < k := by omega
    have c2 : s.ioCount + 1 + 1 < k := by omega
    have c3 : s.ioCount + 1 + 1 + 1 < k := by omega
    have c4 : s.ioCount + 1 + 1 + 1 + 1 < k := by omega
    have c5 : s.ioCount + 1 + 1 + 1 + 1 + 1 < k := by omega
    have c6 : s.ioCount + 1 + 1 + 1 + 1 + 1 + 1 < k := by omega
    have c7 : s.ioCount + 1 + 1 + 1 + 1 + 1 + 1 + 1 < k := by omega
    have c8 : s.ioCount + 1 + 1 + 1 + 1 + 1 + 1 + 1 + 1 < k := by omega
    have c9 : s.ioCount + 1 + 1 + 1 + 1 + 1 + 1 + 1 + 1 + 1 < k := by omega
    rw [← tail4_drop]
    by_cases hw : strTrim (s.osaRs.head?.getD "") = "1" <;>
      simp [sweepPointBody, bodyEvents, cldWrite, osaWrite, osaRead, ioOk, h, sleep,
        writeSummary, emit, writeTraceRows_eq, hw, c0, c1, c2, c3, c4, c5, c6, c7,
        c8, c9, List.append_assoc]
  · intro hfail
    by_cases c0 : s.ioCount < k
    case neg =>
      exact ⟨s, by simp [sweepPointBody, cldWrite, ioOk, h, c0], by omega, by omega,
        ⟨bodyEvents a st d ntp i s.osaRs, rfl⟩⟩
    by_cases c1 : s.ioCount + 1 < k
    case neg =>
      refine ⟨⟨s.events ++ [Event.cldWrite (currentCmd a st i),
            Event.sleepMs d], s.ioCount + 1, s.osaRs, s.cldRs⟩, ?_, ?_, ?_, ?_⟩
      · simp [sweepPointBody, cldWrite, osaWrite, osaRead, ioOk, h, sleep,
          writeSummary, emit, writeTraceRows_eq, List.append_assoc,
          c0, c1]
      · simp
        omega
      · simp [ioEvents_append, isIOEvent]
        omega
      · refine ⟨[Event.osaWrite "TS;DONE?;\n",
            Event.osaRead (s.osaRs.headD "")] ++ (if strTrim (s.osaRs.headD "") = "1" then ([] : List Event) else [Event.warn ("Sweep not confirmed complete. Response: " ++ strTrim (s.osaRs.headD ""))]) ++ [Event.osaWrite "MKPK HI;\n",
            Event.osaWrite "MKWL?;\n",
            Event.osaRead (s.osaRs.tail.headD ""),
            Event.osaWrite "MKA?;\n",
            Event.osaRead (s.osaRs.tail.tail.headD ""),
            Event.summaryLine (summaryRow (pointCurrentMa a st i) (peakWavelengthNmOf (s.osaRs.tail.headD "")) (peakPowerDbmOf (s.osaRs.tail.tail.headD ""))),
            Event.osaWrite "TRA?;\n",
            Event.osaRead (s.osaRs.tail.tail.tail.headD ""),
            Event.createTraceFile (traceFileName (pointCurrentMa a st i)),
            Event.traceLine (traceFileName (pointCurrentMa a st i)) "Wavelength (nm),Power (dBm)"] ++ traceRowEvents ntp (wavelengthStepOf ntp) (traceFileName (pointCurrentMa a st i)) (splitComma (strTrim (s.osaRs.tail.tail.tail.headD ""))), ?_⟩
        simp [bodyEvents, List.append_assoc]
    by_cases c2 : s.ioCount + 1 + 1 < k
    case neg =>
      refine ⟨⟨s.events ++ [Event.cldWrite (currentCmd a st i),
            Event.sleepMs d,
            Event.osaWrite "TS;DONE?;\n"], s.ioCount + 1 + 1, s.osaRs, s.cldRs⟩, ?_, ?_, ?_, ?_⟩
      · simp [sweepPointBody, cldWrite, osaWrite, osaRead, ioOk, h, sleep,
          writeSummary, emit, writeTraceRows_eq, List.append_assoc,
          c0, c1, c2]
      · simp
        omega
      · simp [ioEvents_append, isIOEvent]
        omega
      · refine ⟨[Event.osaRead (s.osaRs.headD "")] ++ (if strTrim (s.osaRs.headD "") = "1" then ([] : List Event) else [Event.warn ("Sweep not confirmed complete. Response: " ++ strTrim (s.osaRs.headD ""))]) ++ [Event.osaWrite "MKPK HI;\n",
            Event.osaWrite "MKWL?;\n",
            Event.osaRead (s.osaRs.tail.headD ""),
            Event.osaWrite "MKA?;\n",
            Event.osaRead (s.osaRs.tail.tail.headD ""),
            Event.summaryLine (summaryRow (pointCurrentMa a st i) (peakWavelengthNmOf (s.osaRs.tail.headD "")) (peakPowerDbmOf (s.osaRs.tail.tail.headD ""))),
            Event.osaWrite "TRA?;\n",
            Event.osaRead (s.osaRs.tail.tail.tail.headD ""),
            Event.createTraceFile (traceFileName (pointCurrentMa a st i)),
            Event.traceLine (traceFileName (pointCurrentMa a st i)) "Wavelength (nm),Power (dBm)"] ++ traceRowEvents ntp (wavelengthStepOf ntp) (traceFileName (pointCurrentMa a st i)) (splitComma (strTrim (s.osaRs.tail.tail.tail.headD ""))), ?_⟩
        simp [bodyEvents, List.append_assoc]
    by_cases c3 : s.ioCount + 1 + 1 + 1 < k
    case neg =>
      refine ⟨⟨s.events ++ [Event.cldWrite (currentCmd a st i),
            Event.sleepMs d,
            Event.osaWrite "TS;DONE?;\n",
            Event.osaRead (s.osaRs.headD "")] ++ (if strTrim (s.osaRs.headD "") = "1" then ([] : List Event) else [Event.warn ("Sweep not confirmed complete. Response: " ++ strTrim (s.osaRs.headD ""))]), s.ioCount + 1 + 1 + 1, s.osaRs.tail, s.cldRs⟩, ?_, ?_, ?_, ?_⟩
      · simp [sweepPointBody, cldWrite, osaWrite, osaRead, ioOk, h, sleep,
          writeSummary, emit, writeTraceRows_eq, List.append_assoc,
          c0, c1, c2, c3]
      · simp
        omega
      · simp [ioEvents_append, isIOEvent]
        omega
      · refine ⟨[Event.osaWrite "MKPK HI;\n",
            Event.osaWrite "MKWL?;\n",
            Event.osaRead (s.osaRs.tail.headD ""),
            Event.osaWrite "MKA?;\n",
            Event.osaRead (s.osaRs.tail.tail.headD ""),
            Event.summaryLine (summaryRow (pointCurrentMa a st i) (peakWavelengthNmOf (s.osaRs.tail.headD "")) (peakPowerDbmOf (s.osaRs.tail.tail.headD ""))),
            Event.osaWrite "TRA?;\n",
            Event.osaRead (s.osaRs.tail.tail.tail.headD ""),
            Event.createTraceFile (traceFileName (pointCurrentMa a st i)),
            Event.traceLine (traceFileName (pointCurrentMa a st i)) "Wavelength (nm),Power (dBm)"] ++ traceRowEvents ntp (wavelengthStepOf ntp) (traceFileName (pointCurrentMa a st i)) (splitComma (strTrim (s.osaRs.tail.tail.tail.headD ""))), ?_⟩
        simp [bodyEvents, List.append_assoc]
    by_cases c4 : s.ioCount + 1 + 1 + 1 + 1 < k
    case neg =>
      refine ⟨⟨s.events ++ [Event.cldWrite (currentCmd a st i),
            Event.sleepMs d,
            Event.osaWrite "TS;DONE?;\n",
            Event.osaRead (s.osaRs.headD "")] ++ (if strTrim (s.osaRs.headD "") = "1" then ([] : List Event) else [Event.warn ("Sweep not confirmed complete. Response: " ++ strTrim (s.osaRs.headD ""))]) ++ [Event.osaWrite "MKPK HI;\n"], s.ioCount + 1 + 1 + 1 + 1, s.osaRs.tail, s.cldRs⟩, ?_, ?_, ?_, ?_⟩
      · simp [sweepPointBody, cldWrite, osaWrite, osaRead, ioOk, h, sleep,
          writeSummary, emit, writeTraceRows_eq, List.append_assoc,
          c0, c1, c2, c3, c4]
      · simp
        omega
      · simp [ioEvents_append, isIOEvent]
        omega
      · refine ⟨[Event.osaWrite "MKWL?;\n",
            Event.osaRead (s.osaRs.tail.headD ""),
            Event.osaWrite "MKA?;\n",
            Event.osaRead (s.osaRs.tail.tail.headD ""),
            Event.summaryLine (summaryRow (pointCurrentMa a st i) (peakWavelengthNmOf (s.osaRs.tail.headD "")) (peakPowerDbmOf (s.osaRs.tail.tail.headD ""))),
            Event.osaWrite "TRA?;\n",
            Event.osaRead (s.osaRs.tail.tail.tail.headD ""),
            Event.createTraceFile (traceFileName (pointCurrentMa a st i)),
            Event.traceLine (traceFileName (pointCurrentMa a st i)) "Wavelength (nm),Power (dBm)"] ++ traceRowEvents ntp (wavelengthStepOf ntp) (traceFileName (pointCurrentMa a st i)) (splitComma (strTrim (s.osaRs.tail.tail.tail.headD ""))), ?_⟩
        simp [bodyEvents, List.append_assoc]
    by_cases c5 : s.ioCount + 1 + 1 + 1 + 1 + 1 < k
    case neg =>
      refine ⟨⟨s.events ++ [Event.cldWrite (currentCmd a st i),
            Event.sleepMs d,
            Event.osaWrite "TS;DONE?;\n",
            Event.osaRead (s.osaRs.headD "")] ++ (if strTrim (s.osaRs.headD "") = "1" then ([] : List Event) else [Event.warn ("Sweep not confirmed complete. Response: " ++ strTrim (s.osaRs.headD ""))]) ++ [Event.osaWrite "MKPK HI;\n",
            Event.osaWrite "MKWL?;\n"], s.ioCount + 1 + 1 + 1 + 1 + 1, s.osaRs.tail, s.cldRs⟩, ?_, ?_, ?_, ?_⟩
      · simp [sweepPointBody, cldWrite, osaWrite, osaRead, ioOk, h, sleep,
          writeSummary, emit, writeTraceRows_eq, List.append_assoc,
          c0, c1, c2, c3, c4, c5]
      · simp
        omega
      · simp [ioEvents_append, isIOEvent]
        omega
      · refine ⟨[Event.osaRead (s.osaRs.tail.headD ""),
            Event.osaWrite "MKA?;\n",
            Event.osaRead (s.osaRs.tail.tail.headD ""),
            Event.summaryLine (summaryRow (pointCurrentMa a st i) (peakWavelengthNmOf (s.osaRs.tail.headD "")) (peakPowerDbmOf (s.osaRs.tail.tail.headD ""))),
            Event.osaWrite "TRA?;\n",
            Event.osaRead (s.osaRs.tail.tail.tail.headD ""),
            Event.createTraceFile (traceFileName (pointCurrentMa a st i)),
            Event.traceLine (traceFileName (pointCurrentMa a st i)) "Wavelength (nm),Power (dBm)"] ++ traceRowEvents ntp (wavelengthStepOf ntp) (traceFileName (pointCurrentMa a st i)) (splitComma (strTrim (s.osaRs.tail.tail.tail.headD ""))), ?_⟩
        simp [bodyEvents, List.append_assoc]
    by_cases c6 : s.ioCount + 1 + 1 + 1 + 1 + 1 + 1 < k
    case neg =>
      refine ⟨⟨s.events ++ [Event.cldWrite (currentCmd a st i),
            Event.sleepMs d,
            Event.osaWrite "TS;DONE?;\n",
            Event.osaRead (s.osaRs.headD "")] ++ (if strTrim (s.osaRs.headD "") = "1" then ([] : List Event) else [Event.warn ("Sweep not confirmed complete. Response: " ++ strTrim (s.osaRs.headD ""))]) ++ [Event.osaWrite "MKPK HI;\n",
            Event.osaWrite "MKWL?;\n",
            Event.osaRead (s.osaRs.tail.headD "")], s.ioCount + 1 + 1 + 1 + 1 + 1 + 1, s.osaRs.tail.tail, s.cldRs⟩, ?_, ?_, ?_, ?_⟩
      · simp [sweepPointBody, cldWrite, osaWrite, osaRead, ioOk, h, sleep,
          writeSummary, emit, writeTraceRows_eq, List.append_assoc,
          c0, c1, c2, c3, c4, c5, c6]
      · simp
        omega
      · simp [ioEvents_append, isIOEvent]
        omega
      · refine ⟨[Event.osaWrite "MKA?;\n",
            Event.osaRead (s.osaRs.tail.tail.headD ""),
            Event.summaryLine (summaryRow (pointCurrentMa a st i) (peakWavelengthNmOf (s.osaRs.tail.headD "")) (peakPowerDbmOf (s.osaRs.tail.tail.headD ""))),
            Event.osaWrite "TRA?;\n",
            Event.osaRead (s.osaRs.tail.tail.tail.headD ""),
            Event.createTraceFile (traceFileName (pointCurrentMa a st i)),
            Event.traceLine (traceFileName (pointCurrentMa a st i)) "Wavelength (nm),Power (dBm)"] ++ traceRowEvents ntp (wavelengthStepOf ntp) (traceFileName (pointCurrentMa a st i)) (splitComma (strTrim (s.osaRs.tail.tail.tail.headD ""))), ?_⟩
        simp [bodyEvents, List.append_assoc]
    by_cases c7 : s.ioCount + 1 + 1 + 1 + 1 + 1 + 1 + 1 < k
    case neg =>
      refine ⟨⟨s.events ++ [Event.cldWrite (currentCmd a st i),
            Event.sleepMs d,
            Event.osaWrite "TS;DONE?;\n",
            Event.osaRead (s.osaRs.headD "")] ++ (if strTrim (s.osaRs.headD "") = "1" then ([] : List Event) else [Event.warn ("Sweep not confirmed complete. Response: " ++ strTrim (s.osaRs.headD ""))]) ++ [Event.osaWrite "MKPK HI;\n",
            Event.osaWrite "MKWL?;\n",
            Event.osaRead (s.osaRs.tail.headD ""),
            Event.osaWrite "MKA?;\n"], s.ioCount + 1 + 1 + 1 + 1 + 1 + 1 + 1, s.osaRs.tail.tail, s.cldRs⟩, ?_, ?_, ?_, ?_⟩
      · simp [sweepPointBody, cldWrite, osaWrite, osaRead, ioOk, h, sleep,
          writeSummary, emit, writeTraceRows_eq, List.append_assoc,
          c0, c1, c2, c3, c4, c5, c6, c7]
      · simp
        omega
      · simp [ioEvents_append, isIOEvent]
        omega
      · refine ⟨[Event.osaRead (s.osaRs.tail.tail.headD ""),
            Event.summaryLine (summaryRow (pointCurrentMa a st i) (peakWavelengthNmOf (s.osaRs.tail.headD "")) (peakPowerDbmOf (s.osaRs.tail.tail.headD ""))),
            Event.osaWrite "TRA?;\n",
            Event.osaRead (s.osaRs.tail.tail.tail.headD ""),
            Event.createTraceFile (traceFileName (pointCurrentMa a st i)),
            Event.traceLine (traceFileName (pointCurrentMa a st i)) "Wavelength (nm),Power (dBm)"] ++ traceRowEvents ntp (wavelengthStepOf ntp) (traceFileName (pointCurrentMa a st i)) (splitComma (strTrim (s.osaRs.tail.tail.tail.headD ""))), ?_⟩
        simp [bodyEvents, List.append_assoc]
    by_cases c8 : s.ioCount + 1 + 1 + 1 + 1 + 1 + 1 + 1 + 1 < k
    case neg =>
      refine ⟨⟨s.events ++ [Event.cldWrite (currentCmd a st i),
            Event.sleepMs d,
            Event.osaWrite "TS;DONE?;\n",
            Event.osaRead (s.osaRs.headD "")] ++ (if strTrim (s.osaRs.headD "") = "1" then ([] : List Event) else [Event.warn ("Sweep not confirmed complete. Response: " ++ strTrim (s.osaRs.headD ""))]) ++ [Event.osaWrite "MKPK HI;\n",
            Event.osaWrite "MKWL?;\n",
            Event.osaRead (s.osaRs.tail.headD ""),
            Event.osaWrite "MKA?;\n",
            Event.osaRead (s.osaRs.tail.tail.headD ""),
            Event.summaryLine (summaryRow (pointCurrentMa a st i) (peakWavelengthNmOf (s.osaRs.tail.headD "")) (peakPowerDbmOf (s.osaRs.tail.tail.headD "")))], s.ioCount + 1 + 1 + 1 + 1 + 1 + 1 + 1 + 1, s.osaRs.tail.tail.tail, s.cldRs⟩, ?_, ?_, ?_, ?_⟩
      · simp [sweepPointBody, cldWrite, osaWrite, osaRead, ioOk, h, sleep,
          writeSummary, emit, writeTraceRows_eq, List.append_assoc,
          c0, c1, c2, c3, c4, c5, c6, c7, c8]
      · simp
        omega
      · simp [ioEvents_append, isIOEvent]
        omega
      · refine ⟨[Event.osaWrite "TRA?;\n",
            Event.osaRead (s.osaRs.tail.tail.tail.headD ""),
            Event.createTraceFile (traceFileName (pointCurrentMa a st i)),
            Event.traceLine (traceFileName (pointCurrentMa a st i)) "Wavelength (nm),Power (dBm)"] ++ traceRowEvents ntp (wavelengthStepOf ntp) (traceFileName (pointCurrentMa a st i)) (splitComma (strTrim (s.osaRs.tail.tail.tail.headD ""))), ?_⟩
        simp [bodyEvents, List.append_assoc]
    by_cases c9 : s.ioCount + 1 + 1 + 1 + 1 + 1 + 1 + 1 + 1 + 1 < k
    case neg =>
      refine ⟨⟨s.events ++ [Event.cldWrite (currentCmd a st i),
            Event.sleepMs d,
            Event.osaWrite "TS;DONE?;\n",
            Event.osaRead (s.osaRs.headD "")] ++ (if strTrim (s.osaRs.headD "") = "1" then ([] : List Event) else [Event.warn ("Sweep not confirmed complete. Response: " ++ strTrim (s.osaRs.headD ""))]) ++ [Event.osaWrite "MKPK HI;\n",
            Event.osaWrite "MKWL?;\n",
            Event.osaRead (s.osaRs.tail.headD ""),
            Event.osaWrite "MKA?;\n",
            Event.osaRead (s.osaRs.tail.tail.headD ""),
            Event.summaryLine (summaryRow (pointCurrentMa a st i) (peakWavelengthNmOf (s.osaRs.tail.headD "")) (peakPowerDbmOf (s.osaRs.tail.tail.headD ""))),
            Event.osaWrite "TRA?;\n"], s.ioCount + 1 + 1 + 1 + 1 + 1 + 1 + 1 + 1 + 1, s.osaRs.tail.tail.tail, s.cldRs⟩, ?_, ?_, ?_, ?_⟩
      · simp [sweepPointBody, cldWrite, osaWrite, osaRead, ioOk, h, sleep,
          writeSummary, emit, writeTraceRows_eq, List.append_assoc,
          c0, c1, c2, c3, c4, c5, c6, c7, c8, c9]
      · simp
        omega
      · simp [ioEvents_append, isIOEvent]
        omega
      · refine ⟨[Event.osaRead (s.osaRs.tail.tail.tail.headD ""),
            Event.createTraceFile (traceFileName (pointCurrentMa a st i)),
            Event.traceLine (traceFileName (pointCurrentMa a st i)) "Wavelength (nm),Power (dBm)"] ++ traceRowEvents ntp (wavelengthStepOf ntp) (traceFileName (pointCurrentMa a st i)) (splitComma (strTrim (s.osaRs.tail.tail.tail.headD ""))), ?_⟩
        simp [bodyEvents, List.append_assoc]
    exact absurd hfail (by omega)

/-! ### Transport-failure characterization of setup and teardown -/

theorem setup_some (env : Env) (k : Nat) (h : env.failAt = some k) (s : St)
    (hk : s.ioCount ≤ k) :
    (s.ioCount + 9 ≤ k →
      setupPhase env s =
        Except.ok (numTracePointsOf (s.osaRs.headD ""),
          ⟨s.events ++ setupEvents (s.osaRs.headD ""), s.ioCount + 9,
            s.osaRs.tail, s.cldRs⟩)) ∧
    (k < s.ioCount + 9 →
      ∃ s₀, setupPhase env s = Except.error s₀ ∧
        s₀.ioCount = k ∧ ioEvents s₀.events = ioEvents s.events + (k - s.ioCount) ∧
        initOf s₀.events (s.events ++ setupEvents (s.osaRs.headD ""))) := by
  constructor
  · intro hok
    have c0 : s.ioCount < k := by omega
    have c1 : s.ioCount + 1 < k := by omega
    have c2 : s.ioCount + 1 + 1 < k := by omega
    have c3 : s.ioCount + 1 + 1 + 1 < k := by omega
    have c4 : s.ioCount + 1 + 1 + 1 + 1 < k := by omega
    have c5 : s.ioCount + 1 + 1 + 1 + 1 + 1 < k := by omega
    have c6 : s.ioCount + 1 + 1 + 1 + 1 + 1 + 1 < k := by omega
    have c7 : s.ioCount + 1 + 1 + 1 + 1 + 1 + 1 + 1 < k := by omega
    have c8 : s.ioCount + 1 + 1 + 1 + 1 + 1 + 1 + 1 + 1 < k := by omega
    simp [setupPhase, setupEvents, cldWrite, osaWrite, osaRead, ioOk, h, sleep, emit,
      c0, c1, c2, c3, c4, c5, c6, c7, c8, List.append_assoc]
  · intro hfail
    by_cases c0 : s.ioCount < k
    case neg =>
      exact ⟨s, by simp [setupPhase, cldWrite, ioOk, h, c0], by omega, by omega,
        ⟨setupEvents (s.osaRs.headD ""), rfl⟩⟩
    by_cases c1 : s.ioCount + 1 < k
    case neg =>
      refine ⟨⟨s.events ++ [Event.cldWrite "SOURce:FUNCtion:MODE CURRent\n"], s.ioCount + 1, s.osaRs, s.cldRs⟩, ?_, ?_, ?_, ?_⟩
      · simp [setupPhase, cldWrite, osaWrite, osaRead, ioOk, h, sleep, emit,
          List.append_assoc, c0, c1]
      · simp
        omega
      · simp [ioEvents_append, isIOEvent]
        omega
      · refine ⟨[Event.cldWrite "SOURce:CURRent:LIMit:AMPLitude 100MA\n",
            Event.osaWrite "SNGLS;\n",
            Event.osaWrite "CENTERWL 974.7NM;SPANWL 2NM;\n",
            Event.osaWrite "MDS?;\n",
            Event.osaRead (s.osaRs.headD ""),
            Event.cldWrite "OUTPut:STATe 0\n",
            Event.cldWrite "OUTPut2:STATe 1\n",
            Event.sleepMs 100,
            Event.cldWrite "OUTPut:STATe 1\n",
            Event.sleepMs 100], ?_⟩
        simp [setupEvents, List.append_assoc]
    by_cases c2 : s.ioCount + 1 + 1 < k
    case neg =>
      refine ⟨⟨s.events ++ [Event.cldWrite "SOURce:FUNCtion:MODE CURRent\n",
            Event.cldWrite "SOURce:CURRent:LIMit:AMPLitude 100MA\n"], s.ioCount + 1 + 1, s.osaRs, s.cldRs⟩, ?_, ?_, ?_, ?_⟩
      · simp [setupPhase, cldWrite, osaWrite, osaRead, ioOk, h, sleep, emit,
          List.append_assoc, c0, c1, c2]
      · simp
        omega
      · simp [ioEvents_append, isIOEvent]
        omega
      · refine ⟨[Event.osaWrite "SNGLS;\n",
            Event.osaWrite "CENTERWL 974.7NM;SPANWL 2NM;\n",
            Event.osaWrite "MDS?;\n",
            Event.osaRead (s.osaRs.headD ""),
            Event.cldWrite "OUTPut:STATe 0\n",
            Event.cldWrite "OUTPut2:STATe 1\n",
            Event.sleepMs 100,
            Event.cldWrite "OUTPut:STATe 1\n",
            Event.sleepMs 100], ?_⟩
        simp [setupEvents, List.append_assoc]
    by_cases c3 : s.ioCount + 1 + 1 + 1 < k
    case neg =>
      refine ⟨⟨s.events ++ [Event.cldWrite "SOURce:FUNCtion:MODE CURRent\n",
            Event.cldWrite "SOURce:CURRent:LIMit:AMPLitude 100MA\n",
            Event.osaWrite "SNGLS;\n"], s.ioCount + 1 + 1 + 1, s.osaRs, s.cldRs⟩, ?_, ?_, ?_, ?_⟩
      · simp [setupPhase, cldWrite, osaWrite, osaRead, ioOk, h, sleep, emit,
          List.append_assoc, c0, c1, c2, c3]
      · simp
        omega
      · simp [ioEvents_append, isIOEvent]
        omega
      · refine ⟨[Event.osaWrite "CENTERWL 974.7NM;SPANWL 2NM;\n",
            Event.osaWrite "MDS?;\n",
            Event.osaRead (s.osaRs.headD ""),
            Event.cldWrite "OUTPut:STATe 0\n",
            Event.cldWrite "OUTPut2:STATe 1\n",
            Event.sleepMs 100,
            Event.cldWrite "OUTPut:STATe 1\n",
            Event.sleepMs 100], ?_⟩
        simp [setupEvents, List.append_assoc]
    by_cases c4 : s.ioCount + 1 + 1 + 1 + 1 < k
    case neg =>
      refine ⟨⟨s.events ++ [Event.cldWrite "SOURce:FUNCtion:MODE CURRent\n",
            Event.cldWrite "SOURce:CURRent:LIMit:AMPLitude 100MA\n",
            Event.osaWrite "SNGLS;\n",
            Event.osaWrite "CENTERWL 974.7NM;SPANWL 2NM;\n"], s.ioCount + 1 + 1 + 1 + 1, s.osaRs, s.cldRs⟩, ?_, ?_, ?_, ?_⟩
      · simp [setupPhase, cldWrite, osaWrite, osaRead, ioOk, h, sleep, emit,
          List.append_assoc, c0, c1, c2, c3, c4]
      · simp
        omega
      · simp [ioEvents_append, isIOEvent]
        omega
      · refine ⟨[Event.osaWrite "MDS?;\n",
            Event.osaRead (s.osaRs.headD ""),
            Event.cldWrite "OUTPut:STATe 0\n",
            Event.cldWrite "OUTPut2:STATe 1\n",
            Event.sleepMs 100,
            Event.cldWrite "OUTPut:STATe 1\n",
            Event.sleepMs 100], ?_⟩
        simp [setupEvents, List.append_assoc]
    by_cases c5 : s.ioCount + 1 + 1 + 1 + 1 + 1 < k
    case neg =>
      refine ⟨⟨s.events ++ [Event.cldWrite "SOURce:FUNCtion:MODE CURRent\n",
            Event.cldWrite "SOURce:CURRent:LIMit:AMPLitude 100MA\n",
            Event.osaWrite "SNGLS;\n",
            Event.osaWrite "CENTERWL 974.7NM;SPANWL 2NM;\n",
            Event.osaWrite "MDS?;\n"], s.ioCount + 1 + 1 + 1 + 1 + 1, s.osaRs, s.cldRs⟩, ?_, ?_, ?_, ?_⟩
      · simp [setupPhase, cldWrite, osaWrite, osaRead, ioOk, h, sleep, emit,
          List.append_assoc, c0, c1, c2, c3, c4, c5]
      · simp
        omega
      · simp [ioEvents_append, isIOEvent]
        omega
      · refine ⟨[Event.osaRead (s.osaRs.headD ""),
            Event.cldWrite "OUTPut:STATe 0\n",
            Event.cldWrite "OUTPut2:STATe 1\n",
            Event.sleepMs 100,
            Event.cldWrite "OUTPut:STATe 1\n",
            Event.sleepMs 100], ?_⟩
        simp [setupEvents, List.append_assoc]
    by_cases c6 : s.ioCount + 1 + 1 + 1 + 1 + 1 + 1 < k
    case neg =>
      refine ⟨⟨s.events ++ [Event.cldWrite "SOURce:FUNCtion:MODE CURRent\n",
            Event.cldWrite "SOURce:CURRent:LIMit:AMPLitude 100MA\n",
            Event.osaWrite "SNGLS;\n",
            Event.osaWrite "CENTERWL 974.7NM;SPANWL 2NM;\n",
            Event.osaWrite "MDS?;\n",
            Event.osaRead (s.osaRs.headD "")], s.ioCount + 1 + 1 + 1 + 1 + 1 + 1, s.osaRs.tail, s.cldRs⟩, ?_, ?_, ?_, ?_⟩
      · simp [setupPhase, cldWrite, osaWrite, osaRead, ioOk, h, sleep, emit,
          List.append_assoc, c0, c1, c2, c3, c4, c5, c6]
      · simp
        omega
      · simp [ioEvents_append, isIOEvent]
        omega
      · refine ⟨[Event.cldWrite "OUTPut:STATe 0\n",
            Event.cldWrite "OUTPut2:STATe 1\n",
            Event.sleepMs 100,
            Event.cldWrite "OUTPut:STATe 1\n",
            Event.sleepMs 100], ?_⟩
        simp [setupEvents, List.append_assoc]
    by_cases c7 : s.ioCount + 1 + 1 + 1 + 1 + 1 + 1 + 1 < k
    case neg =>
      refine ⟨⟨s.events ++ [Event.cldWrite "SOURce:FUNCtion:MODE CURRent\n",
            Event.cldWrite "SOURce:CURRent:LIMit:AMPLitude 100MA\n",
            Event.osaWrite "SNGLS;\n",
            Event.osaWrite "CENTERWL 974.7NM;SPANWL 2NM;\n",
            Event.osaWrite "MDS?;\n",
            Event.osaRead (s.osaRs.headD ""),
            Event.cldWrite "OUTPut:STATe 0\n"], s.ioCount + 1 + 1 + 1 + 1 + 1 + 1 + 1, s.osaRs.tail, s.cldRs⟩, ?_, ?_, ?_, ?_⟩
      · simp [setupPhase, cldWrite, osaWrite, osaRead, ioOk, h, sleep, emit,
          List.append_assoc, c0, c1, c2, c3, c4, c5, c6, c7]
      · simp
        omega
      · simp [ioEvents_append, isIOEvent]
        omega
      · refine ⟨[Event.cldWrite "OUTPut2:STATe 1\n",
            Event.sleepMs 100,
            Event.cldWrite "OUTPut:STATe 1\n",
            Event.sleepMs 100], ?_⟩
        simp [setupEvents, List.append_assoc]
    by_cases c8 : s.ioCount + 1 + 1 + 1 + 1 + 1 + 1 + 1 + 1 < k
    case neg =>
      refine ⟨⟨s.events ++ [Event.cldWrite "SOURce:FUNCtion:MODE CURRent\n",
            Event.cldWrite "SOURce:CURRent:LIMit:AMPLitude 100MA\n",
            Event.osaWrite "SNGLS;\n",
            Event.osaWrite "CENTERWL 974.7NM;SPANWL 2NM;\n",
            Event.osaWrite "MDS?;\n",
            Event.osaRead (s.osaRs.headD ""),
            Event.cldWrite "OUTPut:STATe 0\n",
            Event.cldWrite "OUTPut2:STATe 1\n",
            Event.sleepMs 100], s.ioCount + 1 + 1 + 1 + 1 + 1 + 1 + 1 + 1, s.osaRs.tail, s.cldRs⟩, ?_, ?_, ?_, ?_⟩
      · simp [setupPhase, cldWrite, osaWrite, osaRead, ioOk, h, sleep, emit,
          List.append_assoc, c0, c1, c2, c3, c4, c5, c6, c7, c8]
      · simp
        omega
      · simp [ioEvents_append, isIOEvent]
        omega
      · refine ⟨[Event.cldWrite "OUTPut:STATe 1\n",
            Event.sleepMs 100], ?_⟩
        simp [setupEvents, List.append_assoc]
    exact absurd hfail (by omega)

theorem teardown_some (env : Env) (k : Nat) (h : env.failAt = some k) (s : St)
    (hk : s.ioCount ≤ k) :
    (s.ioCount + 6 ≤ k →
      teardown env s =
        Except.ok ⟨s.events ++ teardownEvents (s.cldRs.headD "") (s.osaRs.headD ""),
          s.ioCount + 6, s.osaRs.tail, s.cldRs.tail⟩) ∧
    (k < s.ioCount + 6 →
      ∃ s₀, teardown env s = Except.error s₀ ∧
        s₀.ioCount = k ∧ ioEvents s₀.events = ioEvents s.events + (k - s.ioCount) ∧
        initOf s₀.events
          (s.events ++ teardownEvents (s.cldRs.headD "") (s.osaRs.headD ""))) := by
  constructor
  · intro hok
    have c0 : s.ioCount < k := by omega
    have c1 : s.ioCount + 1 < k := by omega
    have c2 : s.ioCount + 1 + 1 < k := by omega
    have c3 : s.ioCount + 1 + 1 + 1 < k := by omega
    have c4 : s.ioCount + 1 + 1 + 1 + 1 < k := by omega
    have c5 : s.ioCount + 1 + 1 + 1 + 1 + 1 < k := by omega
    simp [teardown, teardownEvents, cldWrite, osaWrite, osaRead, cldRead, ioOk, h,
      emit, c0, c1, c2, c3, c4, c5, List.append_assoc]
  · intro hfail
    by_cases c0 : s.ioCount < k
    case neg =>
      exact ⟨s, by simp [teardown, cldWrite, ioOk, h, c0], by omega, by omega,
        ⟨teardownEvents (s.cldRs.headD "") (s.osaRs.headD ""), rfl⟩⟩
    by_cases c1 : s.ioCount + 1 < k
    case neg =>
      refine ⟨⟨s.events ++ [Event.cldWrite "OUTPut:STATe 0\n"], s.ioCount + 1, s.osaRs, s.cldRs⟩, ?_, ?_, ?_, ?_⟩
      · simp [teardown, cldWrite, osaWrite, cldRead, osaRead, ioOk, h, emit,
          List.append_assoc, c0, c1]
      · simp
        omega
      · simp [ioEvents_append, isIOEvent]
        omega
      · refine ⟨[Event.osaWrite "SWEEP OFF;\n",
            Event.cldWrite "SYST:ERR?\n",
            Event.cldRead (s.cldRs.headD ""),
            Event.osaWrite "XERR?;\n",
            Event.osaRead (s.osaRs.headD "")], ?_⟩
        simp [teardownEvents, List.append_assoc]
    by_cases c2 : s.ioCount + 1 + 1 < k
    case neg =>
      refine ⟨⟨s.events ++ [Event.cldWrite "OUTPut:STATe 0\n",
            Event.osaWrite "SWEEP OFF;\n"], s.ioCount + 1 + 1, s.osaRs, s.cldRs⟩, ?_, ?_, ?_, ?_⟩
      · simp [teardown, cldWrite, osaWrite, cldRead, osaRead, ioOk, h, emit,
          List.append_assoc, c0, c1, c2]
      · simp
        omega
      · simp [ioEvents_append, isIOEvent]
        omega
      · refine ⟨[Event.cldWrite "SYST:ERR?\n",
            Event.cldRead (s.cldRs.headD ""),
            Event.osaWrite "XERR?;\n",
            Event.osaRead (s.osaRs.headD "")], ?_⟩
        simp [teardownEvents, List.append_assoc]
    by_cases c3 : s.ioCount + 1 + 1 + 1 < k
    case neg =>
      refine ⟨⟨s.events ++ [Event.cldWrite "OUTPut:STATe 0\n",
            Event.osaWrite "SWEEP OFF;\n",
            Event.cldWrite "SYST:ERR?\n"], s.ioCount + 1 + 1 + 1, s.osaRs, s.cldRs⟩, ?_, ?_, ?_, ?_⟩
      · simp [teardown, cldWrite, osaWrite, cldRead, osaRead, ioOk, h, emit,
          List.append_assoc, c0, c1, c2, c3]
      · simp
        omega
      · simp [ioEvents_append, isIOEvent]
        omega
      · refine ⟨[Event.cldRead (s.cldRs.headD ""),
            Event.osaWrite "XERR?;\n",
            Event.osaRead (s.osaRs.headD "")], ?_⟩
        simp [teardownEvents, List.append_assoc]
    by_cases c4 : s.ioCount + 1 + 1 + 1 + 1 < k
    case neg =>
      refine ⟨⟨s.events ++ [Event.cldWrite "OUTPut:STATe 0\n",
            Event.osaWrite "SWEEP OFF;\n",
            Event.cldWrite "SYST:ERR?\n",
            Event.cldRead (s.cldRs.headD "")], s.ioCount + 1 + 1 + 1 + 1, s.osaRs, s.cldRs.tail⟩, ?_, ?_, ?_, ?_⟩
      · simp [teardown, cldWrite, osaWrite, cldRead, osaRead, ioOk, h, emit,
          List.append_assoc, c0, c1, c2, c3, c4]
      · simp
        omega
      · simp [ioEvents_append, isIOEvent]
        omega
      · refine ⟨[Event.osaWrite "XERR?;\n",
            Event.osaRead (s.osaRs.headD "")], ?_⟩
        simp [teardownEvents, List.append_assoc]
    by_cases c5 : s.ioCount + 1 + 1 + 1 + 1 + 1 < k
    case neg =>
      refine ⟨⟨s.events ++ [Event.cldWrite "OUTPut:STATe 0\n",
            Event.osaWrite "SWEEP OFF;\n",
            Event.cldWrite "SYST:ERR?\n",
            Event.cldRead (s.cldRs.headD ""),
            Event.osaWrite "XERR?;\n"], s.ioCount + 1 + 1 + 1 + 1 + 1, s.osaRs, s.cldRs.tail⟩, ?_, ?_, ?_, ?_⟩
      · simp [teardown, cldWrite, osaWrite, cldRead, osaRead, ioOk, h, emit,
          List.append_assoc, c0, c1, c2, c3, c4, c5]
      · simp
        omega
      · simp [ioEvents_append, isIOEvent]
        omega
      · refine ⟨[Event.osaRead (s.osaRs.headD "")], ?_⟩
        simp [teardownEvents, List.append_assoc]
    exact absurd hfail (by omega)

/-! ### Event counts of the pure trace pieces -/

theorem initOf_append_right (l₁ l₂ l₃ : List Event) (hi : initOf l₁ l₂) :
    initOf l₁ (l₂ ++ l₃) := by
  obtain ⟨t, ht⟩ := hi
  exact ⟨t ++ l₃, by rw [ht, List.append_assoc]⟩

theorem ioEvents_bodyEvents (a st : ℚ) (d ntp i : Nat) (rs : List String) :
    ioEvents (bodyEvents a st d ntp i rs) = 10 := by
  by_cases hw : strTrim (rs.headD "") = "1" <;>
    simp [bodyEvents, ioEvents_append, isIOEvent, ioEvents_traceRowEvents, hw]

theorem ioEvents_setupEvents (r0 : String) : ioEvents (setupEvents r0) = 9 := by
  simp [setupEvents, isIOEvent]

theorem ioEvents_teardownEvents (c o : String) :
    ioEvents (teardownEvents c o) = 6 := by
  simp [teardownEvents, isIOEvent]

theorem ioEvents_loopEvents (a st : ℚ) (d ntp : Nat) (L : List Nat)
    (rs : List String) : ioEvents (loopEvents a st d ntp L rs) = 10 * L.length := by
  induction L generalizing rs with
  | nil => simp [loopEvents]
  | cons i rest ih =>
    simp [loopEvents, ioEvents_append, ioEvents_bodyEvents, ih, Nat.mul_succ,
      Nat.add_comm]

/-! ### Transport-failure characterization of the sweep loop and the run -/

theorem loop_some (env : Env) (k : Nat) (h : env.failAt = some k) (a st : ℚ)
    (d ntp : Nat) (L : List Nat) (s : St) (hk : s.ioCount ≤ k) :
    (s.ioCount + 10 * L.length ≤ k →
      sweepLoop env a st d ntp L s =
        Except.ok ⟨s.events ++ loopEvents a st d ntp L s.osaRs,
          s.ioCount + 10 * L.length, s.osaRs.drop (4 * L.length), s.cldRs⟩) ∧
    (k < s.ioCount + 10 * L.length →
      ∃ s₀, sweepLoop env a st d ntp L s = Except.error s₀ ∧
        s₀.ioCount = k ∧ ioEvents s₀.events = ioEvents s.events + (k - s.ioCount) ∧
        initOf s₀.events (s.events ++ loopEvents a st d ntp L s.osaRs)) := by
  induction L generalizing s with
  | nil =>
    constructor
    · intro _
      simp [sweepLoop, loopEvents]
    · intro hf
      exact absurd hf (by simp; omega)
  | cons i rest ih =>
    rcases body_some env k h a st d ntp i s hk with ⟨hbok, hberr⟩
    by_cases hc : s.ioCount + 10 ≤ k
    · rw [sweepLoop, hbok hc, exc_bind_ok]
      rcases ih ⟨s.events ++ bodyEvents a st d ntp i s.osaRs, s.ioCount + 10,
        s.osaRs.drop 4, s.cldRs⟩ (by simpa using hc) with ⟨hlok, hlerr⟩
      constructor
      · intro hok2
        rw [hlok (by simp; simp at hok2; omega)]
        simp [loopEvents, List.append_assoc, List.drop_drop]
        refine ⟨by omega, ?_⟩
        congr 1
        omega
      · intro hf
        rcases hlerr (by simp; simp at hf; omega) with ⟨s₀, he, hc₀, hio₀, hin₀⟩
        refine ⟨s₀, he, hc₀, ?_, ?_⟩
        · simp [ioEvents_append, ioEvents_bodyEvents] at hio₀
          omega
        · simp only [loopEvents]
          rw [← List.append_assoc]
          simpa using hin₀
    · rcases hberr (by omega) with ⟨s₀, he, hc₀, hio₀, hin₀⟩
      rw [sweepLoop, he, exc_bind_err]
      constructor
      · intro hok2
        exact absurd hok2 (by simp; omega)
      · intro _
        refine ⟨s₀, rfl, hc₀, hio₀, ?_⟩
        simp only [loopEvents]
        rw [← List.append_assoc]
        exact initOf_append_right _ _ _ hin₀

theorem run_some (env : Env) (k : Nat) (h : env.failAt = some k) (a b st : ℚ)
    (d : Nat) :
    (15 + 10 * numPoints a b st ≤ k →
      run_current_sweep env a b st d =
        Except.ok ⟨fullEvents env a b st d, 15 + 10 * numPoints a b st,
          (env.osaResponses.tail.drop (4 * numPoints a b st)).tail,
          env.cldResponses.tail⟩) ∧
    (k < 15 + 10 * numPoints a b st →
      ∃ s₀, run_current_sweep env a b st d = Except.error s₀ ∧
        s₀.ioCount = k ∧ ioEvents s₀.events = k ∧
        initOf s₀.events (fullEvents env a b st d)) := by
  have hdr0 : ioEvents [Event.summaryLine summaryHeader] = 0 := by
    simp [isIOEvent]
  rcases setup_some env k h
    ⟨[Event.summaryLine summaryHeader], 0, env.osaResponses, env.cldResponses⟩
    (by simp) with ⟨hsok, hserr⟩
  simp only at hsok hserr
  by_cases hc1 : 9 ≤ k
  · rw [run_current_sweep, hsok (by omega), exc_bind_ok]
    rcases loop_some env k h a st d
      (numTracePointsOf (env.osaResponses.headD ""))
      (List.range (numPoints a b st))
      ⟨[Event.summaryLine summaryHeader] ++ setupEvents (env.osaResponses.headD ""),
        0 + 9, env.osaResponses.tail, env.cldResponses⟩
      (by simpa using hc1) with ⟨hlok, hlerr⟩
    simp only [List.length_range] at hlok hlerr
    by_cases hc2 : 9 + 10 * numPoints a b st ≤ k
    · rw [hlok (by simp; omega), exc_bind_ok]
      rcases teardown_some env k h
        ⟨([Event.summaryLine summaryHeader] ++ setupEvents (env.osaResponses.headD "")) ++
            loopEvents a st d (numTracePointsOf (env.osaResponses.headD ""))
              (List.range (numPoints a b st)) env.osaResponses.tail,
          0 + 9 + 10 * numPoints a b st,
          env.osaResponses.tail.drop (4 * numPoints a b st), env.cldResponses⟩
        (by simp; omega) with ⟨htok, hterr⟩
      simp only at htok hterr
      constructor
      · intro hok
        rw [htok (by omega)]
        simp [fullEvents, List.append_assoc]
        omega
      · intro hf
        rcases hterr (by omega) with ⟨s₀, he, hc₀, hio₀, hin₀⟩
        refine ⟨s₀, he, hc₀, ?_, ?_⟩
        · simp [ioEvents_append, ioEvents_setupEvents, ioEvents_loopEvents,
            isIOEvent] at hio₀
          omega
        · have : fullEvents env a b st d =
              (([Event.summaryLine summaryHeader] ++
                  setupEvents (env.osaResponses.headD "")) ++
                loopEvents a st d (numTracePointsOf (env.osaResponses.headD ""))
                  (List.range (numPoints a b st)) env.osaResponses.tail) ++
              teardownEvents (env.cldResponses.headD "")
                ((env.osaResponses.tail.drop (4 * numPoints a b st)).headD "") := by
            simp [fullEvents, List.append_assoc]
          rw [this]
          exact hin₀
    · constructor
      · intro hok
        exact absurd hok (by omega)
      · intro _
        rcases hlerr (by simp; omega) with ⟨s₀, he, hc₀, hio₀, hin₀⟩
        rw [he, exc_bind_err]
        refine ⟨s₀, rfl, hc₀, ?_, ?_⟩
        · simp [ioEvents_append, ioEvents_setupEvents, isIOEvent] at hio₀
          omega
        · have : fullEvents env a b st d =
              (([Event.summaryLine summaryHeader] ++
                  setupEvents (env.osaResponses.headD "")) ++
                loopEvents a st d (numTracePointsOf (env.osaResponses.headD ""))
                  (List.range (numPoints a b st)) env.osaResponses.tail) ++
              teardownEvents (env.cldResponses.headD "")
                ((env.osaResponses.tail.drop (4 * numPoints a b st)).headD "") := by
            simp [fullEvents, List.append_assoc]
          rw [this]
          exact initOf_append_right _ _ _ hin₀
  · constructor
    · intro hok
      exact absurd hok (by omega)
    · intro _
      rcases hserr (by omega) with ⟨s₀, he, hc₀, hio₀, hin₀⟩
      rw [run_current_sweep, he, exc_bind_err]
      refine ⟨s₀, rfl, hc₀, ?_, ?_⟩
      · simp [isIOEvent] at hio₀
        omega
      · have : fullEvents env a b st d =
            ([Event.summaryLine summaryHeader] ++
                setupEvents (env.osaResponses.headD "")) ++
              (loopEvents a st d (numTracePointsOf (env.osaResponses.headD ""))
                  (List.range (numPoints a b st)) env.osaResponses.tail ++
                teardownEvents (env.cldResponses.headD "")
                  ((env.osaResponses.tail.drop (4 * numPoints a b st)).headD "")) := by
          simp [fullEvents, List.append_assoc]
        rw [this]
        exact initOf_append_right _ _ _ hin₀

/-! ### The trace of any run is an initial segment of the failure-free trace -/

theorem fullEvents_noFail (env : Env) (a b st : ℚ) (d : Nat) :
    fullEvents (noFail env) a b st d = fullEvents env a b st d := rfl

theorem run_noFail_events (env : Env) (h : env.failAt = none) (a b st : ℚ)
    (d : Nat) :
    resultEvents (run_current_sweep env a b st d) = fullEvents env a b st d := by
  rw [run_none env h]
  rfl

theorem run_initOf_fullEvents (env : Env) (a b st : ℚ) (d : Nat) :
    initOf (resultEvents (run_current_sweep env a b st d))
      (fullEvents env a b st d) := by
  rcases hf : env.failAt with _ | k
  · rw [run_noFail_events env hf]
    exact initOf_refl _
  · rcases run_some env k hf a b st d with ⟨hok, herr⟩
    by_cases hk : 15 + 10 * numPoints a b st ≤ k
    · rw [hok hk]
      exact initOf_refl _
    · rcases herr (by omega) with ⟨s₀, he, _, _, hin⟩
      rw [he]
      exact hin

/-! ### Summary-CSV lines of the trace pieces -/

theorem summaryLines_append (l₁ l₂ : List Event) :
    summaryLines (l₁ ++ l₂) = summaryLines l₁ ++ summaryLines l₂ := by
  simp [summaryLines]

theorem summaryLines_traceRowEvents (ntp : Nat) (w : ℚ) (f : String)
    (values : List String) : summaryLines (traceRowEvents ntp w f values) = [] := by
  unfold traceRowEvents
  generalize values.enum = l
  induction l with
  | nil => simp [summaryLines]
  | cons jv rest ih =>
    by_cases hj : jv.1 < ntp <;> simp [List.filterMap_cons, hj, summaryLines] <;>
      simpa [summaryLines] using ih

theorem traceRowEvents_not_summary (ntp : Nat) (w : ℚ) (f : String)
    (values : List String) :
    ∀ e ∈ traceRowEvents ntp w f values,
      (match e with
        | Event.summaryLine l => some l
        | _ => none) = (none : Option String) := by
  unfold traceRowEvents
  generalize values.enum = l
  induction l with
  | nil => simp
  | cons jv rest ih =>
    intro e he
    by_cases hj : jv.1 < ntp
    · simp only [List.filterMap_cons, if_pos hj] at he
      rcases List.mem_cons.mp he with he | he
      · subst he
        rfl
      · exact ih e he
    · simp only [List.filterMap_cons, if_neg hj] at he
      exact ih e he

theorem summaryLines_bodyEvents (a st : ℚ) (d ntp i : Nat) (rs : List String) :
    summaryLines (bodyEvents a st d ntp i rs) =
      [summaryRow (pointCurrentMa a st i) (peakWavelengthNmOf (rs.tail.headD ""))
        (peakPowerDbmOf (rs.tail.tail.headD ""))] := by
  by_cases hw : strTrim (rs.head?.getD "") = "1" <;>
    simp [bodyEvents, summaryLines_append, summaryLines, hw,
      summaryLines_traceRowEvents] <;>
    exact traceRowEvents_not_summary _ _ _ _

theorem summaryLines_loopEvents (a st : ℚ) (d ntp : Nat) (L : List Nat)
    (rs : List String) :
    summaryLines (loopEvents a st d ntp L rs) = summaryRows a st L rs := by
  induction L generalizing rs with
  | nil => simp [loopEvents, summaryRows, summaryLines]
  | cons i rest ih =>
    simp [loopEvents, summaryLines_append, summaryLines_bodyEvents, ih, summaryRows]

theorem summaryLines_cons_summary (l : String) (evts : List Event) :
    summaryLines (Event.summaryLine l :: evts) = l :: summaryLines evts := by
  simp [summaryLines]

theorem summaryLines_setupEvents (r0 : String) :
    summaryLines (setupEvents r0) = [] := by
  simp [setupEvents, summaryLines]

theorem summaryLines_teardownEvents (c o : String) :
    summaryLines (teardownEvents c o) = [] := by
  simp [teardownEvents, summaryLines]

theorem summaryLines_fullEvents (env : Env) (a b st : ℚ) (d : Nat) :
    summaryLines (fullEvents env a b st d) =
      summaryHeader ::
        summaryRows a st (List.range (numPoints a b st)) env.osaResponses.tail := by
  simp only [fullEvents, summaryLines_cons_summary, summaryLines_append,
    summaryLines_setupEvents, summaryLines_teardownEvents, summaryLines_loopEvents,
    List.append_nil, List.nil_append, List.singleton_append]

theorem summaryRows_length (a st : ℚ) (L : List Nat) (rs : List String) :
    (summaryRows a st L rs).length = L.length := by
  induction L generalizing rs with
  | nil => simp [summaryRows]
  | cons i rest ih => simp [summaryRows, ih]

/-! ### Current-level commands in the trace -/

theorem ListLeads_append (p t : List Char) : ListLeads p (p ++ t) = true := by
  induction p with
  | nil => rfl
  | cons c cs ih => simp [ListLeads, ih]

theorem strLeads_currentCmd (a st : ℚ) (i : Nat) :
    strLeads "SOURce:CURRent:LEVel" (currentCmd a st i) = true := by
  have hsplit : "SOURce:CURRent:LEVel:IMMediate:AMPLitude " =
      "SOURce:CURRent:LEVel" ++ ":IMMediate:AMPLitude " := by decide
  rw [currentCmd, hsplit, strLeads, String.append_assoc, String.append_assoc]
  show ListLeads "SOURce:CURRent:LEVel".data
    ("SOURce:CURRent:LEVel" ++ (":IMMediate:AMPLitude " ++ (fmtFixed 6 (pointCurrentMa a st i / 1000) ++ "\n"))).data = true
  rw [String.data_append]
  exact ListLeads_append _ _

theorem notCurrent_mode :
    strLeads "SOURce:CURRent:LEVel" "SOURce:FUNCtion:MODE CURRent\n" = false := by decide

theorem notCurrent_limit :
    strLeads "SOURce:CURRent:LEVel" "SOURce:CURRent:LIMit:AMPLitude 100MA\n" = false := by
  decide

theorem notCurrent_off :
    strLeads "SOURce:CURRent:LEVel" "OUTPut:STATe 0\n" = false := by decide

theorem notCurrent_tec :
    strLeads "SOURce:CURRent:LEVel" "OUTPut2:STATe 1\n" = false := by decide

theorem notCurrent_on :
    strLeads "SOURce:CURRent:LEVel" "OUTPut:STATe 1\n" = false := by decide

theorem notCurrent_syst :
    strLeads "SOURce:CURRent:LEVel" "SYST:ERR?\n" = false := by decide

theorem currentCmds_append (l₁ l₂ : List Event) :
    currentCmds (l₁ ++ l₂) = currentCmds l₁ ++ currentCmds l₂ := by
  simp [currentCmds]

theorem traceRowEvents_not_current (ntp : Nat) (w : ℚ) (f : String)
    (values : List String) :
    ∀ e ∈ traceRowEvents ntp w f values,
      (match e with
        | Event.cldWrite c =>
          if strLeads "SOURce:CURRent:LEVel" c then some c else none
        | _ => none) = (none : Option String) := by
  unfold traceRowEvents
  generalize values.enum = l
  induction l with
  | nil => simp
  | cons jv rest ih =>
    intro e he
    by_cases hj : jv.1 < ntp
    · simp only [List.filterMap_cons, if_pos hj] at he
      rcases List.mem_cons.mp he with he | he
      · subst he
        rfl
      · exact ih e he
    · simp only [List.filterMap_cons, if_neg hj] at he
      exact ih e he

theorem currentCmds_setupEvents (r0 : String) :
    currentCmds (setupEvents r0) = [] := by
  simp [setupEvents, currentCmds, notCurrent_mode, notCurrent_limit, notCurrent_off,
    notCurrent_tec, notCurrent_on]

theorem currentCmds_teardownEvents (c o : String) :
    currentCmds (teardownEvents c o) = [] := by
  simp [teardownEvents, currentCmds, notCurrent_off, notCurrent_syst]

theorem currentCmds_bodyEvents (a st : ℚ) (d ntp i : Nat) (rs : List String) :
    currentCmds (bodyEvents a st d ntp i rs) = [currentCmd a st i] := by
  by_cases hw : strTrim (rs.head?.getD "") = "1" <;>
    simp [bodyEvents, currentCmds_append, currentCmds, strLeads_currentCmd, hw] <;>
    exact traceRowEvents_not_current _ _ _ _

theorem currentCmds_loopEvents (a st : ℚ) (d ntp : Nat) (L : List Nat)
    (rs : List String) :
    currentCmds (loopEvents a st d ntp L rs) = L.map (currentCmd a st) := by
  induction L generalizing rs with
  | nil => simp [loopEvents, currentCmds]
  | cons i rest ih =>
    simp [loopEvents, currentCmds_append, currentCmds_bodyEvents, ih]

theorem currentCmds_fullEvents (env : Env) (a b st : ℚ) (d : Nat) :
    currentCmds (fullEvents env a b st d) =
      (List.range (numPoints a b st)).map (currentCmd a st) := by
  show currentCmds (Event.summaryLine summaryHeader ::
    (setupEvents (env.osaResponses.headD "") ++
      (loopEvents a st d (numTracePointsOf (env.osaResponses.headD ""))
          (List.range (numPoints a b st)) env.osaResponses.tail ++
        teardownEvents (env.cldResponses.headD "")
          ((env.osaResponses.tail.drop (4 * numPoints a b st)).headD "")))) = _
  rw [show (Event.summaryLine summaryHeader ::
    (setupEvents (env.osaResponses.headD "") ++
      (loopEvents a st d (numTracePointsOf (env.osaResponses.headD ""))
          (List.range (numPoints a b st)) env.osaResponses.tail ++
        teardownEvents (env.cldResponses.headD "")
          ((env.osaResponses.tail.drop (4 * numPoints a b st)).headD "")))) =
      [Event.summaryLine summaryHeader] ++
        (setupEvents (env.osaResponses.headD "") ++
          (loopEvents a st d (numTracePointsOf (env.osaResponses.headD ""))
              (List.range (numPoints a b st)) env.osaResponses.tail ++
            teardownEvents (env.cldResponses.headD "")
              ((env.osaResponses.tail.drop (4 * numPoints a b st)).headD ""))) from rfl]
  rw [currentCmds_append, currentCmds_append, currentCmds_append,
    currentCmds_setupEvents, currentCmds_loopEvents, currentCmds_teardownEvents]
  simp [currentCmds]

/-! ### Indexed access to summary rows and trace rows -/

theorem headD_drop {α : Type} (l : List α) :
    ∀ (n : Nat) (d : α), (l.drop n).headD d = l.getD n d := by
  induction l with
  | nil =>
    intro n d
    cases n <;> rfl
  | cons x xs ih =>
    intro n d
    cases n with
    | zero => rfl
    | succ m => simpa using ih m d

theorem tail_drop_succ {α : Type} (l : List α) (n : Nat) :
    (l.drop n).tail = l.drop (n + 1) := by
  induction l generalizing n with
  | nil => cases n <;> rfl
  | cons x xs ih =>
    cases n with
    | zero => rfl
    | succ m => simpa using ih m

theorem summaryRows_range'_getD (a st : ℚ) (n : Nat) :
    ∀ (j0 i : Nat) (rs : List String), i < n →
      (summaryRows a st (List.range' j0 n) rs).getD i "" =
        summaryRow (pointCurrentMa a st (j0 + i))
          (peakWavelengthNmOf (rs.getD (4 * i + 1) ""))
          (peakPowerDbmOf (rs.getD (4 * i + 2) "")) := by
  induction n with
  | zero =>
    intro j0 i rs hi
    omega
  | succ m ih =>
    intro j0 i rs hi
    rw [List.range'_succ]
    cases i with
    | zero =>
      simp [summaryRows, ← headD_drop, ← tail_drop_succ]
    | succ i' =>
      have := ih (j0 + 1) i' (rs.drop 4) (by omega)
      simp only [summaryRows, List.getD_cons_succ]
      rw [this]
      have harith : j0 + 1 + i' = j0 + (i' + 1) := by omega
      have hidx1 : (rs.drop 4).getD (4 * i' + 1) "" = rs.getD (4 * (i' + 1) + 1) "" := by
        rw [← headD_drop, ← headD_drop, List.drop_drop,
          show 4 + (4 * i' + 1) = 4 * (i' + 1) + 1 from by omega]
      have hidx2 : (rs.drop 4).getD (4 * i' + 2) "" = rs.getD (4 * (i' + 1) + 2) "" := by
        rw [← headD_drop, ← headD_drop, List.drop_drop,
          show 4 + (4 * i' + 2) = 4 * (i' + 1) + 2 from by omega]
      rw [harith, hidx1, hidx2]

theorem traceRows_aux_nil (ntp : Nat) (w : ℚ) (f : String) :
    ∀ (vs : List String) (k : Nat), ntp ≤ k →
      ((List.enumFrom k vs).filterMap (fun jv =>
        if jv.1 < ntp then
          some (Event.traceLine f (fmtFixed 4 (startWl + (jv.1 : ℚ) * w) ++ "," ++
            fmtFixed 4 (tracePowerOf jv.2)))
        else none)) = [] := by
  intro vs
  induction vs with
  | nil =>
    intro k hk
    rfl
  | cons v vt ih =>
    intro k hk
    simp only [List.enumFrom, List.filterMap_cons, if_neg (show ¬ (k < ntp) from by omega)]
    exact ih (k + 1) (by omega)

theorem traceRows_aux_length (ntp : Nat) (w : ℚ) (f : String) :
    ∀ (vs : List String) (k : Nat), k ≤ ntp →
      ((List.enumFrom k vs).filterMap (fun jv =>
        if jv.1 < ntp then
          some (Event.traceLine f (fmtFixed 4 (startWl + (jv.1 : ℚ) * w) ++ "," ++
            fmtFixed 4 (tracePowerOf jv.2)))
        else none)).length = min (ntp - k) vs.length := by
  intro vs
  induction vs with
  | nil =>
    intro k hk
    simp
  | cons v vt ih =>
    intro k hk
    by_cases hklt : k < ntp
    · simp only [List.enumFrom, List.filterMap_cons, if_pos hklt, List.length_cons]
      rw [ih (k + 1) (by omega)]
      omega
    · simp only [List.enumFrom, List.filterMap_cons, if_neg hklt]
      rw [traceRows_aux_nil ntp w f vt (k + 1) (by omega)]
      simp
      omega

theorem traceRows_aux_get (ntp : Nat) (w : ℚ) (f : String) :
    ∀ (vs : List String) (k j : Nat), k + j < ntp → j < vs.length →
      ((List.enumFrom k vs).filterMap (fun jv =>
        if jv.1 < ntp then
          some (Event.traceLine f (fmtFixed 4 (startWl + (jv.1 : ℚ) * w) ++ "," ++
            fmtFixed 4 (tracePowerOf jv.2)))
        else none)).get? j =
        some (Event.traceLine f (fmtFixed 4 (startWl + ((k + j : Nat) : ℚ) * w) ++ "," ++
          fmtFixed 4 (tracePowerOf (vs.getD j "")))) := by
  intro vs
  induction vs with
  | nil =>
    intro k j h1 h2
    simp at h2
  | cons v vt ih =>
    intro k j h1 h2
    simp only [List.enumFrom, List.filterMap_cons, if_pos (show k < ntp from by omega)]
    cases j with
    | zero => simp
    | succ j' =>
      simp only [List.get?_cons_succ, List.getD_cons_succ]
      rw [ih (k + 1) j' (by omega) (by simpa using h2),
        show k + 1 + j' = k + (j' + 1) from by omega]

theorem traceRowEvents_length (ntp : Nat) (w : ℚ) (f : String)
    (values : List String) :
    (traceRowEvents ntp w f values).length = min ntp values.length := by
  have := traceRows_aux_length ntp w f values 0 (by omega)
  simpa [traceRowEvents, List.enum] using this

theorem traceRowEvents_get (ntp : Nat) (w : ℚ) (f : String) (values : List String)
    (j : Nat) (h1 : j < ntp) (h2 : j < values.length) :
    (traceRowEvents ntp w f values).get? j =
      some (Event.traceLine f (fmtFixed 4 (startWl + (j : ℚ) * w) ++ "," ++
        fmtFixed 4 (tracePowerOf (values.getD j "")))) := by
  have := traceRows_aux_get ntp w f values 0 j (by omega) h2
  simpa [traceRowEvents, List.enum] using this

/-! ### Position of the current-limit command and the startup sequence -/

theorem initOf_get? (l₁ l₂ : List Event) (h : initOf l₁ l₂) (n : Nat) (e : Event)
    (he : l₁.get? n = some e) : l₂.get? n = some e := by
  obtain ⟨t, rfl⟩ := h
  rw [List.get?_append (List.get?_eq_some.mp he).1]
  exact he

theorem initOf_length (l₁ l₂ : List Event) (h : initOf l₁ l₂) :
    l₁.length ≤ l₂.length := by
  obtain ⟨t, rfl⟩ := h
  simp

theorem fullEvents_take12 (env : Env) (a b st : ℚ) (d : Nat) :
    (fullEvents env a b st d).take 12 =
      Event.summaryLine summaryHeader ::
        setupEvents (env.osaResponses.headD "") := rfl

theorem fullEvents_get2 (env : Env) (a b st : ℚ) (d : Nat) :
    (fullEvents env a b st d).get? 2 =
      some (Event.cldWrite "SOURce:CURRent:LIMit:AMPLitude 100MA\n") := rfl

theorem fullEvents_current_pos (env : Env) (a b st : ℚ) (d : Nat) (j : Nat)
    (cmd : String)
    (hj : (fullEvents env a b st d).get? j = some (Event.cldWrite cmd))
    (hcur : strLeads "SOURce:CURRent:LEVel" cmd = true) : 12 ≤ j := by
  by_contra hlt
  have h12 : (fullEvents env a b st d).take 12 =
      Event.summaryLine summaryHeader ::
        setupEvents (env.osaResponses.headD "") := fullEvents_take12 env a b st d
  have hj' : (Event.summaryLine summaryHeader ::
      setupEvents (env.osaResponses.headD "")).get? j = some (Event.cldWrite cmd) := by
    rw [← h12, List.get?_take (by omega)]
    exact hj
  interval_cases j <;>
    simp [setupEvents] at hj' <;>
    (subst hj'; simp [notCurrent_mode, notCurrent_limit, notCurrent_off,
      notCurrent_tec, notCurrent_on] at hcur)

/-! ### The claims -/

/-- C1: for every sweep plan with `step > 0` and `stop ≥ start`, the number of
sweep points computed and iterated by `run_current_sweep` equals
`⌊(stop-start)/step⌋ + 1` and is at least 1; the set-points
`currentMa(i) = start + i*step` are strictly ascending, a failure-free run
sends exactly one current-level command per point in that order, and
`start=0, stop=10, step=2` yields the 6 set-points `0,2,4,6,8,10`. -/
theorem C1_sweep_point_count (a b st : ℚ) (d : Nat) (hst : 0 < st)
    (hse : a ≤ b) :
    ((numPoints a b st : ℤ) = ⌊(b - a) / st⌋ + 1) ∧
    1 ≤ numPoints a b st ∧
    (∀ i j : Nat, i < j → pointCurrentMa a st i < pointCurrentMa a st j) ∧
    (∀ env : Env, env.failAt = none →
      currentCmds (resultEvents (run_current_sweep env a b st d)) =
        (List.range (numPoints a b st)).map (currentCmd a st)) ∧
    (numPoints 0 10 2 = 6 ∧
      (List.range 6).map (pointCurrentMa 0 2) = [0, 2, 4, 6, 8, 10]) := by
  refine ⟨?_, by simp [numPoints], ?_, ?_, by decide, by decide⟩
  · have hnn : (0 : ℤ) ≤ ⌊(b - a) / st⌋ :=
      Int.floor_nonneg.mpr (div_nonneg (by linarith) hst.le)
    rw [numPoints]
    push_cast [Int.toNat_of_nonneg hnn]
    ring
  · intro i j hij
    rw [pointCurrentMa, pointCurrentMa]
    have : (i : ℚ) < (j : ℚ) := by exact_mod_cast hij
    nlinarith
  · intro env he
    rw [run_noFail_events env he, currentCmds_fullEvents]

/-- C1 witness: the theorem applied to the sweep plan `(0, 10, 2)`. -/
theorem C1_sweep_point_count_witness :
    (0 : ℚ) < 2 ∧ (0 : ℚ) ≤ 10 ∧ numPoints 0 10 2 = 6 ∧
      (List.range 6).map (pointCurrentMa 0 2) = [0, 2, 4, 6, 8, 10] :=
  ⟨by decide, by decide,
    (C1_sweep_point_count 0 10 2 0 (by decide) (by decide)).2.2.2.2⟩

/-- C2 counterexample: the analyzer's trace-point-count response `"0"` parses
successfully as a `usize`, so the controller keeps `numTracePoints = 0`
instead of falling back to 800 as the claim states for non-positive values. -/
theorem C2_counterexample :
    numTracePointsOf "0" = 0 ∧ numTracePointsOf "0" ≠ 800 := by decide

/-- C2 (amended): the controller falls back to `numTracePoints = 800` exactly
when the trimmed response fails to parse as an unsigned integer (negative or
non-numeric text); a response parsing to a non-negative integer is used
as-is, so `"0"` yields 0, not 800; in neither case does the run abort — a
run with no transport failure always returns success. -/
theorem C2_fallback_800 (r : String) (h : parseUsize (strTrim r) = none) :
    numTracePointsOf r = 800 ∧
    numTracePointsOf "0" = 0 ∧
    (∀ env : Env, ∀ a b st : ℚ, ∀ d : Nat, env.failAt = none →
      ∃ s, run_current_sweep env a b st d = Except.ok s) := by
  refine ⟨by simp [numTracePointsOf, h], by decide, ?_⟩
  intro env a b st d he
  exact ⟨_, run_none env he a b st d⟩

/-- C2 witness: the amended theorem applied to the unparsable response
`"N/A"` and, for the run-continues conjunct, to a concrete environment whose
trace-point-count response is `"0"`. -/
theorem C2_fallback_800_witness :
    parseUsize (strTrim "N/A") = none ∧ numTracePointsOf "N/A" = 800 ∧
      envZeroMds.failAt = none ∧
      ∃ s, run_current_sweep envZeroMds 0 0 1 0 = Except.ok s :=
  ⟨by decide, (C2_fallback_800 "N/A" (by decide)).1, rfl,
    (C2_fallback_800 "N/A" (by decide)).2.2 envZeroMds 0 0 1 0 rfl⟩

/-- C5 counterexample: the peak-wavelength response `"0.0009747"` multiplied
by 1e9 records 974700 nm, not 974.7 nm — the claimed example input is off by
three orders of magnitude for a value said to be in meters. -/
theorem C5_counterexample :
    peakWavelengthNmOf "0.0009747" = 974700 ∧
    ¬ (|peakWavelengthNmOf "0.0009747" - 974.7| ≤ 1 / 1000000) := by decide

/-- C5 (amended): the peak-wavelength response is interpreted as meters and
converted to nanometers by multiplying the parsed value by 1e9; a response
of `"0.0000009747"` (974.7 nm expressed in meters) yields a recorded peak
wavelength of exactly 974.7 nm, within 1e-6. -/
theorem C5_wavelength_conversion :
    (∀ r : String, ∀ q : ℚ, parseF64 (strTrim r) = some q →
      peakWavelengthNmOf r = q * 1000000000) ∧
    peakWavelengthNmOf "0.0000009747" = 974.7 ∧
    |peakWavelengthNmOf "0.0000009747" - 974.7| ≤ 1 / 1000000 := by
  refine ⟨?_, by decide, by decide⟩
  intro r q h
  simp [peakWavelengthNmOf, h]

/-- C5 witness: the amended theorem applied to the response
`"0.0000009747"`. -/
theorem C5_wavelength_conversion_witness :
    parseF64 (strTrim "0.0000009747") = some (9747 / 10000000000) ∧
    peakWavelengthNmOf "0.0000009747" = (9747 / 10000000000 : ℚ) * 1000000000 :=
  ⟨by decide,
    C5_wavelength_conversion.1 "0.0000009747" (9747 / 10000000000) (by decide)⟩

/-- C10: when the trace-point-count response parses to exactly 1, the
wavelength-interpolation divisor `numTracePoints - 1` is zero and the
division is unguarded; in IEEE arithmetic (modelled by `Fp`) the step is
`+∞` and every per-sample wavelength is non-finite (`NaN` at sample 0), yet
for any non-empty trace response at least one row is still written. -/
theorem C10_unguarded_division (values : List String) (f : String)
    (hne : values ≠ []) :
    numTracePointsOf "1" = 1 ∧
    ((numTracePointsOf "1" : ℚ) - 1 = 0) ∧
    fpWavelengthStep 1 = Fp.inf false ∧
    fpTraceWavelength 1 0 = Fp.nan ∧
    (∀ j : Nat, (fpTraceWavelength 1 j).isFinite = false) ∧
    1 ≤ (traceRowEvents 1 (wavelengthStepOf 1) f values).length := by
  refine ⟨by decide, by decide, by decide, by decide, ?_, ?_⟩
  · intro j
    have hstep : fpWavelengthStep 1 = Fp.inf false := by decide
    cases j with
    | zero => decide
    | succ m =>
      have hpos : (0 : ℚ) < (m : ℚ) + 1 := by positivity
      rw [fpTraceWavelength, hstep,
        show (Fp.fin ((m + 1 : Nat) : ℚ)) = Fp.fin ((m : ℚ) + 1) from by
          push_cast
          rfl]
      simp [Fp.mul, Fp.add, Fp.isFinite, ne_of_gt hpos, not_lt.mpr hpos.le]
  · rw [traceRowEvents_length]
    have : 1 ≤ values.length := List.length_pos.mpr hne
    omega

/-- C10 witness: the theorem applied to a one-sample trace response. -/
theorem C10_unguarded_division_witness :
    (["-50.0"] : List String) ≠ [] ∧
      1 ≤ (traceRowEvents 1 (wavelengthStepOf 1) "t.csv" ["-50.0"]).length :=
  ⟨by simp, (C10_unguarded_division ["-50.0"] "t.csv" (by simp)).2.2.2.2.2⟩

/-- C6: a `(wavelength, power)` trace row is written for sample index `j`
iff `j < numTracePoints` and `j` is within the received sample count; the
written wavelength is `startWl + j * (stopWl - startWl)/(numTracePoints-1)`
(stated for `1 < numTracePoints`; the degenerate divisor is the subject of
the unguarded-division claim); for `numTracePoints = 3` the wavelengths of
samples 0, 1, 2 are 973.7, 974.7, 975.7. -/
theorem C6_trace_rows (ntp : Nat) (f : String) (values : List String) (j : Nat) :
    ((traceRowEvents ntp (wavelengthStepOf ntp) f values).length =
      min ntp values.length) ∧
    (1 < ntp → j < ntp → j < values.length →
      (traceRowEvents ntp (wavelengthStepOf ntp) f values).get? j =
        some (Event.traceLine f (fmtFixed 4 (traceWavelength ntp j) ++ "," ++
          fmtFixed 4 (tracePowerOf (values.getD j ""))))) ∧
    (ntp ≤ j ∨ values.length ≤ j →
      (traceRowEvents ntp (wavelengthStepOf ntp) f values).get? j = none) ∧
    (traceWavelength 3 0 = 973.7 ∧ traceWavelength 3 1 = 974.7 ∧
      traceWavelength 3 2 = 975.7 ∧ startWl = 973.7 ∧ stopWl = 975.7) := by
  refine ⟨traceRowEvents_length ntp _ f values, ?_, ?_, by decide⟩
  · intro _ h1 h2
    exact traceRowEvents_get ntp (wavelengthStepOf ntp) f values j h1 h2
  · intro hout
    apply List.get?_eq_none.mpr
    rw [traceRowEvents_length]
    omega

/-- C6 witness: the theorem applied to a three-point geometry with three
received samples, at sample index 1. -/
theorem C6_trace_rows_witness :
    1 < 3 ∧ 1 < (["-60.1", "-55.2", "-60.3"] : List String).length ∧
    (traceRowEvents 3 (wavelengthStepOf 3) "t.csv"
        ["-60.1", "-55.2", "-60.3"]).get? 1 =
      some (Event.traceLine "t.csv" (fmtFixed 4 (traceWavelength 3 1) ++ "," ++
        fmtFixed 4 (tracePowerOf "-55.2"))) :=
  ⟨by decide, by decide,
    (C6_trace_rows 3 "t.csv" ["-60.1", "-55.2", "-60.3"] 1).2.1 (by decide)
      (by decide) (by decide)⟩

/-- C3: a transport failure at any channel operation aborts the run
immediately with a transport-error result: exactly the operations before the
failure are performed, the aborted trace (hence its summary rows) is an
initial segment of the failure-free trace, and transport errors are the only
cause of a failure return — with no transport failure the run returns
success. -/
theorem C3_transport_abort (env : Env) (a b st : ℚ) (d : Nat) :
    (env.failAt = none → ∃ s, run_current_sweep env a b st d = Except.ok s) ∧
    (∀ k, env.failAt = some k → k < 15 + 10 * numPoints a b st →
      ∃ s₀, run_current_sweep env a b st d = Except.error s₀ ∧
        ioEvents s₀.events = k ∧
        initOf s₀.events (resultEvents (run_current_sweep (noFail env) a b st d)) ∧
        ∃ t, summaryLines (resultEvents (run_current_sweep (noFail env) a b st d)) =
          summaryLines s₀.events ++ t) ∧
    (∀ k, env.failAt = some k → 15 + 10 * numPoints a b st ≤ k →
      ∃ s, run_current_sweep env a b st d = Except.ok s) := by
  refine ⟨fun he => ⟨_, run_none env he a b st d⟩, ?_, ?_⟩
  · intro k hk hlt
    obtain ⟨s₀, he, _, hio, hin⟩ := (run_some env k hk a b st d).2 hlt
    rw [run_noFail_events (noFail env) rfl, fullEvents_noFail]
    obtain ⟨t, ht⟩ := hin
    exact ⟨s₀, he, hio, ⟨t, ht⟩, ⟨summaryLines t, by rw [ht, summaryLines_append]⟩⟩
  · intro k hk hge
    exact ⟨_, (run_some env k hk a b st d).1 hge⟩

/-- C3 witness: the theorem applied to a transport failing at operation 3 of
a one-point run. -/
theorem C3_transport_abort_witness :
    envFailSetup.failAt = some 3 ∧ 3 < 15 + 10 * numPoints 0 0 1 ∧
    ∃ s₀, run_current_sweep envFailSetup 0 0 1 0 = Except.error s₀ ∧
      ioEvents s₀.events = 3 := by
  refine ⟨rfl, by decide, ?_⟩
  obtain ⟨s₀, he, hio, _, _⟩ :=
    (C3_transport_abort envFailSetup 0 0 1 0).2.1 3 rfl (by decide)
  exact ⟨s₀, he, hio⟩

/-- C4: instrument data errors are never fatal — an unparsable
peak-wavelength response records 0.0, an unparsable peak-power response
records -100.0, an unparsable trace sample records -100.0, a
sweep-completion response whose trimmed text is not `"1"` only adds a
warning event to the body's trace, the loop body never fails without a
transport error, and a run with no transport errors completes all
`numPoints` planned points. -/
theorem C4_data_errors_nonfatal :
    (∀ r : String, parseF64 (strTrim r) = none → peakWavelengthNmOf r = 0) ∧
    (∀ r : String, parseF64 (strTrim r) = none → peakPowerDbmOf r = -100) ∧
    (∀ v : String, parseF64 v = none → tracePowerOf v = -100) ∧
    (∀ a st : ℚ, ∀ d ntp i : Nat, ∀ rs : List String,
      strTrim (rs.headD "") ≠ "1" →
      ∃ pre post, bodyEvents a st d ntp i rs =
        pre ++ Event.warn ("Sweep not confirmed complete. Response: " ++
          strTrim (rs.headD "")) :: post) ∧
    (∀ env : Env, ∀ a st : ℚ, ∀ d ntp i : Nat, ∀ s : St, env.failAt = none →
      ∃ s', sweepPointBody env a st d ntp i s = Except.ok s') ∧
    (∀ env : Env, ∀ a b st : ℚ, ∀ d : Nat, env.failAt = none →
      ∃ s', run_current_sweep env a b st d = Except.ok s' ∧
        (summaryLines s'.events).length = numPoints a b st + 1) := by
  refine ⟨?_, ?_, ?_, ?_, ?_, ?_⟩
  · intro r h
    simp [peakWavelengthNmOf, h]
  · intro r h
    simp [peakPowerDbmOf, h]
  · intro v h
    simp [tracePowerOf, h]
  · intro a st d ntp i rs hw
    refine ⟨[Event.cldWrite (currentCmd a st i), Event.sleepMs d,
      Event.osaWrite "TS;DONE?;\n", Event.osaRead (rs.headD "")],
      [Event.osaWrite "MKPK HI;\n", Event.osaWrite "MKWL?;\n",
       Event.osaRead (rs.tail.headD ""), Event.osaWrite "MKA?;\n",
       Event.osaRead (rs.tail.tail.headD ""),
       Event.summaryLine (summaryRow (pointCurrentMa a st i)
         (peakWavelengthNmOf (rs.tail.headD ""))
         (peakPowerDbmOf (rs.tail.tail.headD ""))),
       Event.osaWrite "TRA?;\n", Event.osaRead (rs.tail.tail.tail.headD ""),
       Event.createTraceFile (traceFileName (pointCurrentMa a st i)),
       Event.traceLine (traceFileName (pointCurrentMa a st i))
         "Wavelength (nm),Power (dBm)"] ++
      traceRowEvents ntp (wavelengthStepOf ntp)
        (traceFileName (pointCurrentMa a st i))
        (splitComma (strTrim (rs.tail.tail.tail.headD ""))), ?_⟩
    simp [bodyEvents, hw, List.append_assoc]
    simpa using hw
  · intro env a st d ntp i s he
    exact ⟨_, body_none env he a st d ntp i s⟩
  · intro env a b st d he
    refine ⟨_, run_none env he a b st d, ?_⟩
    show (summaryLines (fullEvents env a b st d)).length = _
    rw [summaryLines_fullEvents]
    simp [summaryRows_length]

/-- C4 witness: the theorem applied to the unparsable responses `"N/A"` and
`"x"`, the non-success completion response `"0"`, and a concrete
failure-free run. -/
theorem C4_data_errors_nonfatal_witness :
    parseF64 (strTrim "N/A") = none ∧ peakPowerDbmOf "N/A" = -100 ∧
    parseF64 "x" = none ∧ tracePowerOf "x" = -100 ∧
    envRunOk.failAt = none ∧
    ∃ s', run_current_sweep envRunOk 0 0 1 0 = Except.ok s' ∧
      (summaryLines s'.events).length = numPoints 0 0 1 + 1 :=
  ⟨by decide, C4_data_errors_nonfatal.2.1 "N/A" (by decide), by decide,
    C4_data_errors_nonfatal.2.2.1 "x" (by decide), rfl,
    C4_data_errors_nonfatal.2.2.2.2.2 envRunOk 0 0 1 0 rfl⟩

theorem getD_tail (l : List String) (n : Nat) (d : String) :
    l.tail.getD n d = l.getD (n + 1) d := by
  rw [← headD_drop l.tail n d, ← List.drop_one, List.drop_drop, headD_drop]
  congr 1
  omega

/-- C7: after a failure-free run the summary file is exactly the header line
followed by one row per set-point, `numPoints + 1` lines in all, each data
row being the `{:.2},{:.4},{:.2}` rendering of the point's current,
peak wavelength and peak power. -/
theorem C7_summary_file (env : Env) (a b st : ℚ) (d : Nat)
    (h : env.failAt = none) :
    ∃ s', run_current_sweep env a b st d = Except.ok s' ∧
      summaryLines s'.events =
        summaryHeader ::
          summaryRows a st (List.range (numPoints a b st)) env.osaResponses.tail ∧
      (summaryLines s'.events).length = numPoints a b st + 1 ∧
      (summaryLines s'.events).getD 0 "" =
        "Current (mA),Peak Wavelength (nm),Peak Power (dBm)" ∧
      ∀ i, i < numPoints a b st →
        (summaryLines s'.events).getD (i + 1) "" =
          fmtFixed 2 (pointCurrentMa a st i) ++ "," ++
            fmtFixed 4 (peakWavelengthNmOf (env.osaResponses.getD (4 * i + 2) "")) ++
            "," ++
            fmtFixed 2 (peakPowerDbmOf (env.osaResponses.getD (4 * i + 3) "")) := by
  have hsum : summaryLines (fullEvents env a b st d) =
      summaryHeader ::
        summaryRows a st (List.range (numPoints a b st)) env.osaResponses.tail :=
    summaryLines_fullEvents env a b st d
  refine ⟨_, run_none env h a b st d, hsum, ?_, ?_, ?_⟩
  · show (summaryLines (fullEvents env a b st d)).length = _
    rw [hsum]
    simp [summaryRows_length]
  · show (summaryLines (fullEvents env a b st d)).getD 0 "" = _
    rw [hsum]
    rfl
  · intro i hi
    show (summaryLines (fullEvents env a b st d)).getD (i + 1) "" = _
    rw [hsum]
    simp only [List.getD_cons_succ]
    rw [List.range_eq_range', summaryRows_range'_getD a st _ 0 i _ hi,
      getD_tail, getD_tail,
      show 4 * i + 1 + 1 = 4 * i + 2 from by omega,
      show 4 * i + 2 + 1 = 4 * i + 3 from by omega,
      show 0 + i = i from by omega]
    rfl

/-- C7 witness: the theorem applied to a concrete one-point failure-free
run. -/
theorem C7_summary_file_witness :
    envRunOk.failAt = none ∧
    ∃ s', run_current_sweep envRunOk 0 0 1 0 = Except.ok s' ∧
      (summaryLines s'.events).length = numPoints 0 0 1 + 1 := by
  refine ⟨rfl, ?_⟩
  obtain ⟨s', hrun, _, hlen, _, _⟩ := C7_summary_file envRunOk 0 0 1 0 rfl
  exact ⟨s', hrun, hlen⟩

theorem initOf_take (l₁ l₂ : List Event) (h : initOf l₁ l₂) (n : Nat)
    (hn : n ≤ l₁.length) : l₁.take n = l₂.take n := by
  obtain ⟨t, rfl⟩ := h
  rw [List.take_append_eq_append_take, show n - l₁.length = 0 from by omega]
  simp

/-- C8: in every run (aborted or not), whenever a current-level command
appears at position `j` of the event trace, the hard 100 mA current-limit
command sits at position 2, strictly before it, and the first twelve events
are exactly the header write and the unconditional startup sequence — mode,
limit, analyzer setup, trace-point query, laser OFF, TEC ON, 100 ms delay,
laser ON, 100 ms delay — so the startup ordering precedes every set-point
command. -/
theorem C8_limit_and_startup (env : Env) (a b st : ℚ) (d : Nat) (j : Nat)
    (cmd : String)
    (hj : (resultEvents (run_current_sweep env a b st d)).get? j =
      some (Event.cldWrite cmd))
    (hcur : strLeads "SOURce:CURRent:LEVel" cmd = true) :
    (resultEvents (run_current_sweep env a b st d)).get? 2 =
      some (Event.cldWrite "SOURce:CURRent:LIMit:AMPLitude 100MA\n") ∧
    2 < j ∧ 12 ≤ j ∧
    (resultEvents (run_current_sweep env a b st d)).take 12 =
      [Event.summaryLine summaryHeader,
       Event.cldWrite "SOURce:FUNCtion:MODE CURRent\n",
       Event.cldWrite "SOURce:CURRent:LIMit:AMPLitude 100MA\n",
       Event.osaWrite "SNGLS;\n",
       Event.osaWrite "CENTERWL 974.7NM;SPANWL 2NM;\n",
       Event.osaWrite "MDS?;\n",
       Event.osaRead (env.osaResponses.headD ""),
       Event.cldWrite "OUTPut:STATe 0\n",
       Event.cldWrite "OUTPut2:STATe 1\n",
       Event.sleepMs 100,
       Event.cldWrite "OUTPut:STATe 1\n",
       Event.sleepMs 100] := by
  have hin := run_initOf_fullEvents env a b st d
  have hjf := initOf_get? _ _ hin j _ hj
  have h12 : 12 ≤ j := fullEvents_current_pos env a b st d j cmd hjf hcur
  have hjlen : j < (resultEvents (run_current_sweep env a b st d)).length :=
    (List.get?_eq_some.mp hj).1
  have hlen : 12 ≤ (resultEvents (run_current_sweep env a b st d)).length := by
    omega
  obtain ⟨t, ht⟩ := hin
  refine ⟨?_, by omega, h12, ?_⟩
  · have h2 := fullEvents_get2 env a b st d
    rw [ht, List.get?_append (show 2 <
      (resultEvents (run_current_sweep env a b st d)).length from by omega)] at h2
    exact h2
  · have htake := initOf_take _ _ ⟨t, ht⟩ 12 hlen
    rw [htake, fullEvents_take12]
    rfl

/-- C8 witness: the theorem applied to the first current-level command of a
concrete one-point run, at trace position 12. -/
theorem C8_limit_and_startup_witness :
    (resultEvents (run_current_sweep envRunOk 0 0 1 0)).get? 12 =
      some (Event.cldWrite "SOURce:CURRent:LEVel:IMMediate:AMPLitude 0.000000\n") ∧
    strLeads "SOURce:CURRent:LEVel"
      "SOURce:CURRent:LEVel:IMMediate:AMPLitude 0.000000\n" = true ∧
    (resultEvents (run_current_sweep envRunOk 0 0 1 0)).get? 2 =
      some (Event.cldWrite "SOURce:CURRent:LIMit:AMPLitude 100MA\n") ∧
    2 < 12 :=
  ⟨by decide, by decide,
    (C8_limit_and_startup envRunOk 0 0 1 0 12
      "SOURce:CURRent:LEVel:IMMediate:AMPLitude 0.000000\n" (by decide)
      (by decide)).1,
    by decide⟩

/-- C9: within every sweep iteration the summary row is appended immediately
before the trace-data query `TRA?;` is written, so a transport failure at
the trace query of point `i` (operation 17 of a one-point run) leaves the
summary file already holding point `i`'s row while no trace file for point
`i` was ever created. -/
theorem C9_summary_precedes_trace_query :
    (∀ a st : ℚ, ∀ d ntp i : Nat, ∀ rs : List String,
      ∃ pre rest, bodyEvents a st d ntp i rs =
        pre ++ Event.summaryLine (summaryRow (pointCurrentMa a st i)
            (peakWavelengthNmOf (rs.tail.headD ""))
            (peakPowerDbmOf (rs.tail.tail.headD ""))) ::
          Event.osaWrite "TRA?;\n" :: rest) ∧
    (∃ s₀, run_current_sweep envFailTra 0 0 1 0 = Except.error s₀) ∧
    summaryLines (resultEvents (run_current_sweep envFailTra 0 0 1 0)) =
      [summaryHeader, "0.00,974.7000,-20.50"] ∧
    traceFilesCreated (resultEvents (run_current_sweep envFailTra 0 0 1 0)) = [] := by
  refine ⟨?_, ⟨_, rfl⟩, by decide, by decide⟩
  intro a st d ntp i rs
  refine ⟨[Event.cldWrite (currentCmd a st i), Event.sleepMs d,
    Event.osaWrite "TS;DONE?;\n", Event.osaRead (rs.headD "")] ++
    (if strTrim (rs.headD "") ≠ "1" then
       [Event.warn ("Sweep not confirmed complete. Response: " ++
         strTrim (rs.headD ""))]
     else []) ++
    [Event.osaWrite "MKPK HI;\n", Event.osaWrite "MKWL?;\n",
     Event.osaRead (rs.tail.headD ""), Event.osaWrite "MKA?;\n",
     Event.osaRead (rs.tail.tail.headD "")],
    Event.osaRead (rs.tail.tail.tail.headD "") ::
      Event.createTraceFile (traceFileName (pointCurrentMa a st i)) ::
      Event.traceLine (traceFileName (pointCurrentMa a st i))
        "Wavelength (nm),Power (dBm)" ::
      traceRowEvents ntp (wavelengthStepOf ntp)
        (traceFileName (pointCurrentMa a st i))
        (splitComma (strTrim (rs.tail.tail.tail.headD ""))), ?_⟩
  simp [bodyEvents, List.append_assoc]
